import Mathlib

/-!
Verification of the 2D platformer engine core (scene simulation in scene.rs and
procedural generation in generator.rs) against its natural-language specification.

Modelling conventions for the shallow embedding:
* f32 values are modelled as exact rationals.  The claims under study do not
  depend on rounding of f32 arithmetic; trigonometric and square-root
  intrinsics (used only for cosmetic motion, particle fans and the projectile
  aim direction) are abstracted as an explicit parameter record of type
  MathFns, so every theorem quantifies over them.
* u32 values are naturals together with explicit saturating arithmetic
  (saturating_add saturates at 2^32 - 1, as in the source); usize values are
  naturals (casts from f32 truncate toward zero and saturate at 0 and at
  2^64 - 1, as Rust as-casts do).
* The rand::Rng collaborator is a deterministic stream: a 64-bit LCG state,
  threaded explicitly exactly where the source threads the &mut rng.  Each
  sampling helper returns none exactly when the corresponding rand call
  panics (an empty range), so Option models panic.
* Keyboard state (macroquad is_key_down / is_key_pressed) is an external
  collaborator; it is modelled as a snapshot of predicates over key codes
  passed to the tick, queried through the same InputConfig key bindings the
  source queries.  Sound playback and drawing are side effects with no
  influence on the scene state and are not modelled.
* The authored-level file collaborator (load_custom_level does file I/O) is
  modelled as an Option CustomLevel parameter: the parsed definition, or none
  when the file is missing or corrupt.
* Rust string lowercasing is modelled by an ASCII lowercase map (all the
  strings the engine compares are ASCII).
-/

namespace Engine

/-- Size of the u32 value range. -/
def u32Mod : Nat := 4294967296

/-- Largest u32 value, the saturation point of u32 saturating_add. -/
def u32Max : Nat := 4294967295

/-- Largest usize value (64-bit), saturation point of as-casts to usize. -/
def usizeMax : Nat := 18446744073709551615

/-- u32 saturating_add. -/
def satAdd (a b : Nat) : Nat := min (a + b) u32Max

/-- ASCII lowercase of one character (models Rust to_lowercase /
to_ascii_lowercase on the ASCII configuration strings the engine uses). -/
def lowerChar (c : Char) : Char :=
  if 'A' ≤ c ∧ c ≤ 'Z' then Char.ofNat (c.toNat + 32) else c

/-- ASCII lowercase of a string. -/
def lowerStr (s : String) : String := ⟨s.data.map lowerChar⟩

/-- ASCII uppercase of one character (Rust to_ascii_uppercase). -/
def upperChar (c : Char) : Char :=
  if 'a' ≤ c ∧ c ≤ 'z' then Char.ofNat (c.toNat - 32) else c

/-- ASCII uppercase of a string. -/
def upperStr (s : String) : String := ⟨s.data.map upperChar⟩

/-- Rust f32 round: round half away from zero. -/
def rustRound (q : ℚ) : ℚ := if 0 ≤ q then (⌊q + 1/2⌋ : ℤ) else (⌈q - 1/2⌉ : ℤ)

/-- Rust as-cast from f32 to usize: truncation toward zero, saturating at 0
below and at usize::MAX above. -/
def qToUsize (q : ℚ) : Nat := min (⌊q⌋.toNat) usizeMax

/-- Rust as-cast from f32 to u32: truncation toward zero, saturating at 0
below and at u32::MAX above. -/
def qToU32 (q : ℚ) : Nat := min (⌊q⌋.toNat) u32Max

/-- The f32 approximation of pi (the value of std::f32::consts::PI). -/
def pi32 : ℚ := 3.1415927

/-- The f32 approximation of tau (the value of std::f32::consts::TAU). -/
def tau32 : ℚ := 6.2831855

/-- 2D vector of f32, as in macroquad Vec2. -/
structure Vec2 where
  x : ℚ
  y : ℚ
deriving DecidableEq

/-- The vec2 constructor function. -/
def vec2 (x y : ℚ) : Vec2 := ⟨x, y⟩

/-- Vec2::ZERO. -/
def Vec2.zero : Vec2 := ⟨0, 0⟩

instance : Add Vec2 := ⟨fun a b => ⟨a.x + b.x, a.y + b.y⟩⟩

instance : Sub Vec2 := ⟨fun a b => ⟨a.x - b.x, a.y - b.y⟩⟩

/-- Multiplication of a vector by an f32 scalar. -/
def Vec2.smul (v : Vec2) (c : ℚ) : Vec2 := ⟨v.x * c, v.y * c⟩

/-- Axis-aligned rectangle, as in macroquad Rect: top-left corner and size. -/
structure Rect where
  x : ℚ
  y : ℚ
  w : ℚ
  h : ℚ
deriving DecidableEq

/-- macroquad Rect::overlaps: inclusive AABB overlap test. -/
def Rect.overlaps (a b : Rect) : Bool :=
  decide (a.x ≤ b.x + b.w ∧ a.x + a.w ≥ b.x ∧ a.y ≤ b.y + b.h ∧ a.y + a.h ≥ b.y)

/-- A texture handle: opaque identity plus queryable width and height
(macroquad Texture2D as the core uses it). -/
structure Texture where
  tid : Nat
  width : ℚ
  height : ℚ
deriving DecidableEq

/-- macroquad key codes (the subset the engine can bind). -/
inductive KeyCode where
  | A | B | C | D | E | F | G | H | I | J | K | L | M
  | N | O | P | Q | R | S | T | U | V | W | X | Y | Z
  | Left | Right | Up | Down | Space | Escape
deriving DecidableEq

/-- InputConfig from scene.rs: resolved action key bindings. -/
structure InputConfig where
  move_left_primary : KeyCode
  move_left_alt : Option KeyCode
  move_right_primary : KeyCode
  move_right_alt : Option KeyCode
  jump_primary : KeyCode
  jump_alt : Option KeyCode
deriving DecidableEq

/-- A snapshot of the keyboard collaborator for one tick: which keys
is_key_down reports held and which is_key_pressed reports freshly pressed. -/
structure KeyState where
  down : KeyCode → Bool
  pressed : KeyCode → Bool

/-- Abstracted f32 math intrinsics (sin, cos, sqrt).  The claims do not
depend on their values, so theorems quantify over an arbitrary record. -/
structure MathFns where
  sin : ℚ → ℚ
  cos : ℚ → ℚ
  sqrt : ℚ → ℚ

/-- EntityKind from scene.rs. -/
inductive EntityKind where
  | Player
  | Enemy
  | Collectible
  | Projectile
deriving DecidableEq

/-- Entity from scene.rs. -/
structure Entity where
  kind : EntityKind
  texture : Texture
  position : Vec2
  velocity : Vec2
  value : Nat
  health_value : Nat
  base_position : Vec2
  phase : ℚ
  jumping : Bool
deriving DecidableEq

/-- Platform from scene.rs. -/
structure Platform where
  texture : Texture
  position : Vec2
  base_position : Vec2
  phase : ℚ
  moving : Bool
  vertical : Bool
deriving DecidableEq

/-- Particle from scene.rs. -/
structure Particle where
  position : Vec2
  velocity : Vec2
  lifetime : ℚ
deriving DecidableEq

/-- Scene from scene.rs (sound handles and the background texture identity
carry no scene-state semantics beyond identity). -/
structure Scene where
  background : Option Texture
  entities : List Entity
  platforms : List Platform
  score : Nat
  move_speed : ℚ
  jump_strength : ℚ
  gravity : ℚ
  enemy_speed : ℚ
  enemy_gravity_scale : ℚ
  sprite_scale : ℚ
  player_health : Nat
  player_max_health : Nat
  enemy_contact_damage : Nat
  hit_invincibility_duration : ℚ
  hit_flash_enabled : Bool
  hit_timer : ℚ
  player_dead : Bool
  input : InputConfig
  world_width : ℚ
  world_height : ℚ
  time : ℚ
  fall_respawn_offset : ℚ
  jump_sfx_volume : ℚ
  hit_sfx_volume : ℚ
  pickup_sfx_volume : ℚ
  moving_platform_enabled : Bool
  moving_platform_vertical : Bool
  moving_platform_speed : ℚ
  moving_platform_amplitude : ℚ
  collectible_bob_enabled : Bool
  collectible_bob_amplitude : ℚ
  collectible_bob_speed : ℚ
  enemy_jump_enabled : Bool
  enemy_jump_interval : ℚ
  enemy_jump_strength : ℚ
  enemy_jump_timer : ℚ
  enemy_shoot_enabled : Bool
  enemy_shoot_interval : ℚ
  enemy_shoot_timer : ℚ
  enemy_shoot_range : ℚ
  projectile_speed : ℚ
  projectile_damage : Nat
  particles_enabled : Bool
  jump_particle_count : Nat
  hit_particle_count : Nat
  pickup_particle_count : Nat
  particles : List Particle
  enemy_behavior_mode : String
  enemy_chase_range : ℚ
  enemy_circle_radius : ℚ
  enemy_circle_speed : ℚ
deriving DecidableEq

/-- Scene::new from scene.rs: all simulation parameters are copied, starting
health is clamped (max health at least 1, start health clamped into
[1, max]), and the mutable state starts empty. -/
def Scene.new
    (move_speed jump_strength gravity enemy_speed enemy_gravity_scale sprite_scale : ℚ)
    (player_start_health player_max_health enemy_contact_damage : Nat)
    (hit_invincibility_duration : ℚ) (hit_flash_enabled : Bool)
    (fall_respawn_offset jump_sfx_volume hit_sfx_volume pickup_sfx_volume : ℚ)
    (input : InputConfig) (world_width world_height : ℚ)
    (moving_platform_enabled moving_platform_vertical : Bool)
    (moving_platform_speed moving_platform_amplitude : ℚ)
    (collectible_bob_enabled : Bool) (collectible_bob_amplitude collectible_bob_speed : ℚ)
    (enemy_jump_enabled : Bool) (enemy_jump_interval enemy_jump_strength : ℚ)
    (enemy_shoot_enabled : Bool) (enemy_shoot_interval enemy_shoot_range : ℚ)
    (projectile_speed : ℚ) (projectile_damage : Nat)
    (particles_enabled : Bool) (jump_particle_count hit_particle_count pickup_particle_count : Nat)
    (enemy_behavior_mode : String) (enemy_chase_range enemy_circle_radius enemy_circle_speed : ℚ) :
    Scene :=
  let clamped_max := max player_max_health 1
  let clamped_start := min (max player_start_health 1) clamped_max
  { background := none
    entities := []
    platforms := []
    score := 0
    move_speed := move_speed
    jump_strength := jump_strength
    gravity := gravity
    enemy_speed := enemy_speed
    enemy_gravity_scale := enemy_gravity_scale
    sprite_scale := sprite_scale
    player_health := clamped_start
    player_max_health := clamped_max
    enemy_contact_damage := enemy_contact_damage
    hit_invincibility_duration := hit_invincibility_duration
    hit_flash_enabled := hit_flash_enabled
    hit_timer := 0
    player_dead := false
    input := input
    world_width := world_width
    world_height := world_height
    time := 0
    fall_respawn_offset := fall_respawn_offset
    jump_sfx_volume := jump_sfx_volume
    hit_sfx_volume := hit_sfx_volume
    pickup_sfx_volume := pickup_sfx_volume
    moving_platform_enabled := moving_platform_enabled
    moving_platform_vertical := moving_platform_vertical
    moving_platform_speed := moving_platform_speed
    moving_platform_amplitude := moving_platform_amplitude
    collectible_bob_enabled := collectible_bob_enabled
    collectible_bob_amplitude := collectible_bob_amplitude
    collectible_bob_speed := collectible_bob_speed
    enemy_jump_enabled := enemy_jump_enabled
    enemy_jump_interval := enemy_jump_interval
    enemy_jump_strength := enemy_jump_strength
    enemy_jump_timer := 0
    enemy_shoot_enabled := enemy_shoot_enabled
    enemy_shoot_interval := enemy_shoot_interval
    enemy_shoot_timer := 0
    enemy_shoot_range := enemy_shoot_range
    projectile_speed := projectile_speed
    projectile_damage := projectile_damage
    particles_enabled := particles_enabled
    jump_particle_count := jump_particle_count
    hit_particle_count := hit_particle_count
    pickup_particle_count := pickup_particle_count
    particles := []
    enemy_behavior_mode := enemy_behavior_mode
    enemy_chase_range := enemy_chase_range
    enemy_circle_radius := enemy_circle_radius
    enemy_circle_speed := enemy_circle_speed }

/-- entity_rect from scene.rs: projectiles use a fixed 8x8 square scaled by
the sprite scale, every other kind uses its texture size scaled. -/
def entity_rect (entity : Entity) (scale : ℚ) : Rect :=
  match entity.kind with
  | EntityKind.Projectile =>
    let size := 8 * scale
    ⟨entity.position.x - size / 2, entity.position.y - size / 2, size, size⟩
  | _ =>
    let w := entity.texture.width * scale
    let h := entity.texture.height * scale
    ⟨entity.position.x - w / 2, entity.position.y - h / 2, w, h⟩

/-- platform_rect from scene.rs. -/
def platform_rect (platform : Platform) (scale : ℚ) : Rect :=
  let w := platform.texture.width * scale
  let h := platform.texture.height * scale
  ⟨platform.position.x - w / 2, platform.position.y - h / 2, w, h⟩

/-- emit_particles from scene.rs: appends count particles with velocities
fanned across [angle_start, angle_end). -/
def emit_particles (mf : MathFns) (out : List Particle) (origin : Vec2) (count : Nat)
    (angle_start angle_end speed lifetime : ℚ) : List Particle :=
  if count = 0 then out
  else
    let total := max count 1
    let delta := if total ≤ 1 then 0 else (angle_end - angle_start) / (total : ℚ)
    out ++ (List.range total).map (fun i =>
      let angle := angle_start + delta * (i : ℚ)
      let dir := vec2 (mf.cos angle) (mf.sin angle)
      { position := origin, velocity := dir.smul speed, lifetime := lifetime })

/-- is_on_ground from scene.rs: the entity box nudged down one unit overlaps
some platform box. -/
def is_on_ground (entity : Entity) (platforms : List Platform) (scale : ℚ) : Bool :=
  let rect := entity_rect entity scale
  let rect := { rect with y := rect.y + 1 }
  platforms.any (fun platform => rect.overlaps (platform_rect platform scale))

/-- One platform of the landing-resolution loop in scene.rs: if the tracked
box overlaps the platform, snap the entity bottom to the platform top and
zero its vertical velocity. -/
def resolveStep (scale : ℚ) (st : Entity × Rect) (platform : Platform) : Entity × Rect :=
  let plat := platform_rect platform scale
  if st.2.overlaps plat then
    let e := { st.1 with
      position := { st.1.position with y := plat.y - st.2.h / 2 }
      velocity := { st.1.velocity with y := 0 } }
    (e, { st.2 with y := plat.y - st.2.h })
  else st

/-- resolve_platform_collisions from scene.rs: only for downward-moving
entities; every overlapping platform in order snaps the entity bottom to the
platform top and zeroes vertical velocity (last overlap wins). -/
def resolve_platform_collisions (entity : Entity) (platforms : List Platform) (scale : ℚ) :
    Entity :=
  if entity.velocity.y ≤ 0 then entity
  else
    let rect := entity_rect entity scale
    (platforms.foldl (resolveStep scale) (entity, rect)).1

/-- The world-bounds tail of the player arm of Scene::update: clamp the
horizontal position into the world, then respawn at the world center on a
deep fall (position reset to (world_width / 2, 0), velocity zeroed). -/
def clampRespawnPlayer (s : Scene) (entity : Entity) : Entity :=
  let half_w := entity.texture.width * s.sprite_scale / 2
  let entity :=
    if entity.position.x - half_w < 0 then { entity with position.x := half_w } else entity
  let entity :=
    if entity.position.x + half_w > s.world_width then
      { entity with position.x := s.world_width - half_w }
    else entity
  let half_h := entity.texture.height * s.sprite_scale / 2
  if entity.position.y - half_h > s.world_height + s.fall_respawn_offset then
    { entity with position := vec2 (s.world_width / 2) 0, velocity := Vec2.zero }
  else entity

/-- The player arm of the per-entity match in Scene::update: input-driven
horizontal velocity, jump on a fresh press while grounded (with sound and an
upward particle fan), gravity integration, platform resolution, horizontal
world clamping and fall respawn.  Returns the updated entity and the
particles it emitted. -/
def stepPlayer (s : Scene) (keys : KeyState) (mf : MathFns) (dt : ℚ)
    (platforms : List Platform) (entity : Entity) : Entity × List Particle :=
  let left_down := keys.down s.input.move_left_primary
    || (match s.input.move_left_alt with
        | some k => keys.down k
        | none => false)
  let right_down := keys.down s.input.move_right_primary
    || (match s.input.move_right_alt with
        | some k => keys.down k
        | none => false)
  let dir : ℚ := (if left_down then -1 else 0) + (if right_down then 1 else 0)
  let entity := { entity with velocity.x := dir * s.move_speed }
  let on_ground := is_on_ground entity platforms s.sprite_scale
  let jump_pressed := keys.pressed s.input.jump_primary
    || (match s.input.jump_alt with
        | some k => keys.pressed k
        | none => false)
  let jres : Entity × List Particle :=
    if on_ground && jump_pressed then
      let entity := { entity with velocity.y := -s.jump_strength }
      let new_particles :=
        if s.particles_enabled then
          let foot_y := entity.position.y + entity.texture.height * s.sprite_scale / 2
          emit_particles mf [] (vec2 entity.position.x foot_y) s.jump_particle_count
            pi32 tau32 80 (35/100)
        else []
      (entity, new_particles)
    else (entity, ([] : List Particle))
  let entity := jres.1
  let new_particles := jres.2
  let entity := { entity with velocity.y := entity.velocity.y + s.gravity * dt }
  let entity := { entity with position := entity.position + entity.velocity.smul dt }
  let entity := resolve_platform_collisions entity platforms s.sprite_scale
  (clampRespawnPlayer s entity, new_particles)

/-- The horizontal behavior switch of the enemy arm of Scene::update:
patrol (keep velocity), chase (steer toward the player within range), or
circle (deterministic orbit around the base position, bypassing
integration). -/
def enemyHorizontal (s : Scene) (mf : MathFns) (player_pos : Option Vec2)
    (entity : Entity) : Entity :=
  let mode := lowerStr s.enemy_behavior_mode
  if mode = "chase" then
    match player_pos with
    | some pp =>
      let dx := pp.x - entity.position.x
      if |dx| ≤ s.enemy_chase_range then
        let dir : ℚ := if dx > 0 then 1 else -1
        { entity with velocity.x := dir * s.enemy_speed }
      else entity
    | none => entity
  else if mode = "circle" then
    let angle := s.time * s.enemy_circle_speed + entity.phase
    let r := s.enemy_circle_radius
    let pos := vec2 (entity.base_position.x + mf.cos angle * r)
      (entity.base_position.y + mf.sin angle * r)
    { entity with position := pos }
  else entity

/-- The world-edge velocity reversal of the enemy arm (skipped in circle
mode; the position itself is not clamped). -/
def enemyEdgeReverse (s : Scene) (entity : Entity) : Entity :=
  let mode := lowerStr s.enemy_behavior_mode
  let half_w := entity.texture.width * s.sprite_scale / 2
  if entity.position.x - half_w < 0 ∨ entity.position.x + half_w > s.world_width then
    if mode ≠ "circle" then { entity with velocity.x := -entity.velocity.x } else entity
  else entity

/-- The shared-cooldown enemy jump of the enemy arm. -/
def enemyJump (s : Scene) (platforms : List Platform) (entity : Entity) : Entity × Bool :=
  if s.enemy_jump_enabled && entity.jumping && decide (s.enemy_jump_interval > 0)
      && decide (s.enemy_jump_timer ≤ 0) then
    if is_on_ground entity platforms s.sprite_scale then
      ({ entity with velocity.y := -s.enemy_jump_strength }, true)
    else (entity, false)
  else (entity, false)

/-- The shared-cooldown enemy shot of the enemy arm: a projectile aimed at
the player when within range (pure distance, no line of sight). -/
def enemyShoot (s : Scene) (mf : MathFns) (player_pos : Option Vec2) (entity : Entity) :
    Option Entity × Bool :=
  if s.enemy_shoot_enabled && decide (s.enemy_shoot_interval > 0)
      && decide (s.enemy_shoot_timer ≤ 0) then
    match player_pos with
    | some pp =>
      let to_player := pp - entity.position
      let dist := mf.sqrt (to_player.x * to_player.x + to_player.y * to_player.y)
      if dist > 0 ∧ dist ≤ s.enemy_shoot_range then
        let dir := vec2 (to_player.x / dist) (to_player.y / dist)
        let vel := dir.smul s.projectile_speed
        (some { kind := EntityKind.Projectile
                texture := entity.texture
                position := entity.position
                velocity := vel
                value := 0
                health_value := 0
                base_position := entity.position
                phase := 0
                jumping := false }, true)
      else (none, false)
    | none => (none, false)
  else (none, false)

/-- The enemy arm of the per-entity match in Scene::update: scaled gravity,
patrol / chase / circle horizontal behavior, integration (skipped in circle
mode), platform resolution, edge reversal, the shared-cooldown jump and the
shared-cooldown shot.  Returns the updated entity, a spawned projectile if
any, and the jumped / shot flags. -/
def stepEnemy (s : Scene) (mf : MathFns) (dt : ℚ) (platforms : List Platform)
    (player_pos : Option Vec2) (entity : Entity) :
    Entity × Option Entity × Bool × Bool :=
  let entity := { entity with
    velocity.y := entity.velocity.y + s.gravity * s.enemy_gravity_scale * dt }
  let entity := enemyHorizontal s mf player_pos entity
  let entity :=
    if lowerStr s.enemy_behavior_mode ≠ "circle" then
      { entity with position := entity.position + entity.velocity.smul dt }
    else entity
  let entity := resolve_platform_collisions entity platforms s.sprite_scale
  let entity := enemyEdgeReverse s entity
  let ejres := enemyJump s platforms entity
  let entity := ejres.1
  let jumped := ejres.2
  let shres := enemyShoot s mf player_pos entity
  (entity, shres.1, jumped, shres.2)

/-- The collectible arm of the per-entity match in Scene::update: cosmetic
vertical bob around the base position when enabled. -/
def stepCollectible (s : Scene) (mf : MathFns) (entity : Entity) : Entity :=
  if s.collectible_bob_enabled then
    let angle := s.time * s.collectible_bob_speed + entity.phase
    let offset := mf.sin angle * s.collectible_bob_amplitude
    { entity with position.y := entity.base_position.y + offset }
  else entity

/-- The projectile arm of the per-entity match in Scene::update: linear
flight. -/
def stepProjectile (dt : ℚ) (entity : Entity) : Entity :=
  { entity with position := entity.position + entity.velocity.smul dt }

/-- One entity of the per-entity loop in Scene::update, dispatched on kind.
Returns the updated entity, any spawned projectile, the enemy jumped / shot
flags and any emitted particles. -/
def stepEntity (s : Scene) (keys : KeyState) (mf : MathFns) (dt : ℚ)
    (platforms : List Platform) (player_pos : Option Vec2) (entity : Entity) :
    Entity × Option Entity × Bool × Bool × List Particle :=
  match entity.kind with
  | EntityKind.Player =>
    let r := stepPlayer s keys mf dt platforms entity
    (r.1, none, false, false, r.2)
  | EntityKind.Enemy =>
    let r := stepEnemy s mf dt platforms player_pos entity
    (r.1, r.2.1, r.2.2.1, r.2.2.2, [])
  | EntityKind.Collectible => (stepCollectible s mf entity, none, false, false, [])
  | EntityKind.Projectile => (stepProjectile dt entity, none, false, false, [])

/-- Result of the per-entity loop in Scene::update. -/
structure LoopOut where
  entities : List Entity
  new_projectiles : List Entity
  any_enemy_jumped : Bool
  any_enemy_shot : Bool
  new_particles : List Particle

/-- The per-entity loop of Scene::update, in list order. -/
def updateEntities (s : Scene) (keys : KeyState) (mf : MathFns) (dt : ℚ)
    (platforms : List Platform) (player_pos : Option Vec2) :
    List Entity → LoopOut
  | [] => ⟨[], [], false, false, []⟩
  | e :: rest =>
    let r := stepEntity s keys mf dt platforms player_pos e
    let out := updateEntities s keys mf dt platforms player_pos rest
    ⟨r.1 :: out.entities, r.2.1.toList ++ out.new_projectiles,
      r.2.2.1 || out.any_enemy_jumped, r.2.2.2.1 || out.any_enemy_shot,
      r.2.2.2.2 ++ out.new_particles⟩

/-- The scan of the damage block in Scene::update: entities are examined in
order, and the loop breaks as soon as either hazard flag is set, so exactly
one of the two flags can come back true. -/
def scanHazards (scale : ℚ) (rect : Rect) : List Entity → Bool × Bool
  | [] => (false, false)
  | e :: rest =>
    match e.kind with
    | EntityKind.Enemy =>
      if (entity_rect e scale).overlaps rect then (true, false)
      else scanHazards scale rect rest
    | EntityKind.Projectile =>
      if (entity_rect e scale).overlaps rect then (false, true)
      else scanHazards scale rect rest
    | _ => scanHazards scale rect rest

/-- The damage accumulator of the damage block of Scene::update: the
saturating sum of the floored contact damages of the flagged hazards,
floored at 1. -/
def damageOf (s : Scene) (hit_enemy hit_projectile : Bool) : Nat :=
  let damage : Nat := 0
  let damage := if hit_enemy then satAdd damage (max s.enemy_contact_damage 1) else damage
  let damage := if hit_projectile then satAdd damage (max s.projectile_damage 1) else damage
  max damage 1

/-- The inner damage application of the damage block of Scene::update: when
the invincibility timer is out and a hazard flag is set, start the timer,
subtract the accumulated damage from the health (flooring at 0 and marking
death), and emit the hit burst. -/
def damageApply (mf : MathFns) (rect : Rect) (hit_enemy hit_projectile : Bool) (s : Scene) :
    Scene × List Particle :=
  if s.hit_timer ≤ 0 ∧ (hit_enemy || hit_projectile) then
    let s := { s with hit_timer := s.hit_invincibility_duration }
    let damage := damageOf s hit_enemy hit_projectile
    let s :=
      if damage ≥ s.player_health then
        { s with player_health := 0, player_dead := true }
      else { s with player_health := s.player_health - damage }
    let parts :=
      if s.particles_enabled then
        emit_particles mf [] (vec2 (rect.x + rect.w / 2) (rect.y + rect.h / 2))
          s.hit_particle_count 0 tau32 90 (1/2)
      else []
    (s, parts)
  else (s, [])

/-- The projectile removal at the end of the damage block: projectiles
overlapping the player are removed even while invincible. -/
def removeHitProjectiles (rect : Rect) (s : Scene) : Scene :=
  { s with entities := s.entities.filter (fun e =>
      if e.kind = EntityKind.Projectile then !(entity_rect e s.sprite_scale).overlaps rect
      else true) }

/-- The damage block of Scene::update: when the player exists and is alive,
scan for a touching hazard (gated by the invincibility timer), apply the
damage, and remove projectiles overlapping the player even while
invincible. -/
def damagePhase (mf : MathFns) (player_rect : Option Rect) (s : Scene) :
    Scene × List Particle :=
  match player_rect with
  | none => (s, [])
  | some rect =>
    if s.player_health > 0 then
      let scan :=
        if s.hit_timer ≤ 0 then scanHazards s.sprite_scale rect s.entities
        else (false, false)
      let hres := damageApply mf rect scan.1 scan.2 s
      (removeHitProjectiles rect hres.1, hres.2)
    else (s, [])

/-- The pickup block of Scene::update: remove every collectible overlapping
the player, add its value to the score, and heal (capped at max health) when
the player is alive; each pickup emits a burst at its position. -/
def collectPhase (mf : MathFns) (player_rect : Option Rect) (s : Scene) :
    Scene × List Particle :=
  match player_rect with
  | none => (s, [])
  | some rect =>
    let hit := fun (e : Entity) =>
      decide (e.kind = EntityKind.Collectible) && (entity_rect e s.sprite_scale).overlaps rect
    let removed := s.entities.filter (fun e => hit e)
    let kept := s.entities.filter (fun e => !hit e)
    let collected_value := removed.foldl (fun acc e => satAdd acc e.value) 0
    let collected_health := removed.foldl (fun acc e => satAdd acc e.health_value) 0
    let pickup_bursts := if s.particles_enabled then removed.map (·.position) else []
    let s := { s with entities := kept }
    let s := { s with score := satAdd s.score collected_value }
    let s :=
      if collected_health > (0 : Nat) ∧ s.player_health > (0 : Nat) then
        { s with player_health := min (satAdd s.player_health collected_health) s.player_max_health }
      else s
    let parts := pickup_bursts.foldl (fun acc pos =>
      emit_particles mf acc pos s.pickup_particle_count 0 tau32 60 (2/5)) []
    (s, parts)

/-- The particle aging block at the top of Scene::update: integrate and age
live particles (pruning dead ones), or clear them all when disabled. -/
def tickParticles (dt : ℚ) (s : Scene) : Scene :=
  if s.particles_enabled then
    { s with particles := (s.particles.map (fun p =>
        { p with position := p.position + p.velocity.smul dt, lifetime := p.lifetime - dt })
      ).filter (fun p => decide (p.lifetime > 0)) }
  else { s with particles := [] }

/-- The shared enemy cooldown countdowns of Scene::update. -/
def tickEnemyTimers (dt : ℚ) (s : Scene) : Scene :=
  let s :=
    if s.enemy_jump_timer > (0 : ℚ) then
      { s with enemy_jump_timer := max (s.enemy_jump_timer - dt) 0 }
    else s
  if s.enemy_shoot_timer > (0 : ℚ) then
    { s with enemy_shoot_timer := max (s.enemy_shoot_timer - dt) 0 }
  else s

/-- The moving-platform block of Scene::update: sinusoidal offset from the
base position on the configured axis, for flagged platforms only. -/
def movePlatforms (mf : MathFns) (s : Scene) : Scene :=
  if s.moving_platform_enabled then
    let t := s.time * s.moving_platform_speed
    { s with platforms := s.platforms.map (fun platform =>
        if !platform.moving then platform
        else
          let offset := mf.sin (t + platform.phase) * s.moving_platform_amplitude
          if platform.vertical then
            { platform with position.y := platform.base_position.y + offset }
          else
            { platform with position.x := platform.base_position.x + offset }) }
  else s

/-- The invincibility countdown of Scene::update. -/
def tickHitTimer (dt : ℚ) (s : Scene) : Scene :=
  if s.hit_timer > 0 then { s with hit_timer := max (s.hit_timer - dt) 0 } else s

/-- The bookkeeping after the entity loop of Scene::update: store the
updated entities, restart whichever shared cooldown fired, and append the
newly spawned projectiles. -/
def applyLoopOut (out : LoopOut) (s : Scene) : Scene :=
  let s := { s with entities := out.entities }
  let s := if out.any_enemy_jumped then { s with enemy_jump_timer := s.enemy_jump_interval } else s
  let s := if out.any_enemy_shot then { s with enemy_shoot_timer := s.enemy_shoot_interval } else s
  { s with entities := s.entities ++ out.new_projectiles }

/-- The projectile culling block of Scene::update: retain projectiles only
within the world bounds plus a 32-unit margin. -/
def cullProjectiles (s : Scene) : Scene :=
  let world_w := s.world_width
  let world_h := s.world_height
  { s with entities := s.entities.filter (fun e =>
      if e.kind = EntityKind.Projectile then
        decide (e.position.x ≥ -32 ∧ e.position.x ≤ world_w + 32
          ∧ e.position.y ≥ -32 ∧ e.position.y ≤ world_h + 32)
      else true) }

/-- The final particle extension of Scene::update. -/
def addNewParticles (new_particles : List Particle) (s : Scene) : Scene :=
  if s.particles_enabled && !new_particles.isEmpty then
    { s with particles := s.particles ++ new_particles }
  else s

/-- The timer, particle and platform phases at the top of Scene::update, in
source order. -/
def preTick (dt : ℚ) (mf : MathFns) (s : Scene) : Scene :=
  tickHitTimer dt (movePlatforms mf (tickEnemyTimers dt (tickParticles dt
    { s with time := s.time + dt })))

/-- The per-entity loop of Scene::update applied to a (pre-ticked) scene:
the player position snapshot is taken before the loop runs. -/
def loopOutOf (s : Scene) (keys : KeyState) (mf : MathFns) (dt : ℚ) : LoopOut :=
  updateEntities s keys mf dt s.platforms
    ((s.entities.find? (fun e => e.kind = EntityKind.Player)).map (·.position)) s.entities

/-- The player bounding box after movement, as recomputed by Scene::update
before the damage and pickup blocks. -/
def playerRectOf (s : Scene) : Option Rect :=
  (s.entities.find? (fun e => e.kind = EntityKind.Player)).map
    (fun e => entity_rect e s.sprite_scale)

/-- Scene::update from scene.rs, one simulation tick: particle aging, timer
countdowns, moving platforms, the per-entity behavior loop, shared-cooldown
bookkeeping, projectile spawning and culling, damage, pickup, and particle
emission, in source order. -/
def Scene.update (s : Scene) (dt : ℚ) (keys : KeyState) (mf : MathFns) : Scene :=
  let s1 := preTick dt mf s
  let out := loopOutOf s1 keys mf dt
  let s2 := cullProjectiles (applyLoopOut out s1)
  let pr := playerRectOf s2
  let dres := damagePhase mf pr s2
  let cres := collectPhase mf pr dres.1
  addNewParticles (out.new_particles ++ dres.2 ++ cres.2) cres.1

/-- The rand::Rng collaborator, modelled as a deterministic 64-bit LCG
stream.  Every sample consumes exactly one state step, so RNG consumption
order is observable in the final state. -/
structure Rng where
  state : Nat
deriving DecidableEq

/-- One step of the random stream: the current output and the next state. -/
def Rng.next (g : Rng) : Nat × Rng :=
  (g.state % 18446744073709551616,
    ⟨(g.state * 6364136223846793005 + 1442695040888963407) % 18446744073709551616⟩)

/-- rng.gen_range(lo..=hi) on usize: none models the rand panic on an empty
range (hi < lo). -/
def gen_range_nat (lo hi : Nat) (g : Rng) : Option (Nat × Rng) :=
  if hi < lo then none
  else
    let (v, g') := g.next
    some (lo + v % (hi - lo + 1), g')

/-- rng.gen_range(0..n) on usize: none models the rand panic on an empty
range (n = 0). -/
def gen_index (n : Nat) (g : Rng) : Option (Nat × Rng) :=
  if n = 0 then none
  else
    let (v, g') := g.next
    some (v % n, g')

/-- rng.gen_range(lo..hi) on f32: none models the rand panic when the range
is empty (hi ≤ lo). -/
def gen_range_q (lo hi : ℚ) (g : Rng) : Option (ℚ × Rng) :=
  if hi ≤ lo then none
  else
    let (v, g') := g.next
    some (lo + ((v % 4294967296 : Nat) : ℚ) / 4294967296 * (hi - lo), g')

/-- rng.gen::<f32>(): a sample in [0, 1); never panics. -/
def gen_unit (g : Rng) : ℚ × Rng :=
  let (v, g') := g.next
  (((v % 4294967296 : Nat) : ℚ) / 4294967296, g')

/-- rng.gen_bool(0.5): a fair coin; never panics. -/
def gen_bool_half (g : Rng) : Bool × Rng :=
  let (v, g') := g.next
  (decide (v % 2 = 0), g')

/-- SpriteKind from assets.rs. -/
inductive SpriteKind where
  | Player
  | Enemy
  | Background
  | Platform
  | Collectible
  | GoalCollectible
deriving DecidableEq

/-- SpriteAsset from assets.rs. -/
structure SpriteAsset where
  name : String
  texture : Texture
  kind : SpriteKind
deriving DecidableEq

/-- Assets from assets.rs. -/
structure Assets where
  sprites : List SpriteAsset
deriving DecidableEq

/-- Assets::sprites_of_kind. -/
def Assets.sprites_of_kind (a : Assets) (kind : SpriteKind) : List SpriteAsset :=
  a.sprites.filter (fun s => s.kind = kind)

/-- Assets::sprite_by_kind_and_name (name compare is eq_ignore_ascii_case). -/
def Assets.sprite_by_kind_and_name (a : Assets) (kind : SpriteKind) (name : String) :
    Option SpriteAsset :=
  a.sprites.find? (fun s => decide (s.kind = kind) && decide (lowerStr s.name = lowerStr name))

/-- choose_random from generator.rs: none on an empty slice, otherwise a
uniformly drawn element.  It never panics. -/
def choose_random (items : List SpriteAsset) (g : Rng) : Option SpriteAsset × Rng :=
  if items.isEmpty then (none, g)
  else
    let (v, g') := g.next
    (items.get? (v % items.length), g')

/-- EditorOptions from generator.rs. -/
structure EditorOptions where
  default_platform_moving : Bool
  default_platform_vertical : Bool
  default_enemy_jumping : Bool
deriving DecidableEq

/-- GameRules from generator.rs (the full tunable configuration record;
fields the embedded core never reads are kept for fidelity). -/
structure GameRules where
  seed : Option Nat
  mode : String
  control_scheme : String
  enemy_enabled : Bool
  collectible_enabled : Bool
  sfx_enabled : Bool
  music_enabled : Bool
  show_fps : Bool
  vsync_enabled : Bool
  resolution_index : Nat
  debug_overlay : Bool
  collectibles_for_level_up : Nat
  max_level : Nat
  player_start_health : Nat
  player_max_health : Nat
  enemy_contact_damage : Nat
  hit_invincibility_duration : ℚ
  hit_flash_enabled : Bool
  player_move_speed : ℚ
  player_jump_strength : ℚ
  gravity : ℚ
  enemy_speed : ℚ
  enemy_gravity_scale : ℚ
  enemy_spawn_rows : Nat
  min_enemies : Nat
  max_enemies : Nat
  min_collectibles : Nat
  max_collectibles : Nat
  platform_rows : Nat
  min_platforms_per_row : Nat
  max_platforms_per_row : Nat
  platform_min_gap_x : ℚ
  platform_max_gap_x : ℚ
  platform_min_y : ℚ
  platform_max_y : ℚ
  ground_row_enabled : Bool
  enemy_on_platform_chance : ℚ
  collectible_value : Nat
  rare_collectible_chance : ℚ
  rare_collectible_value : Nat
  collectible_health_value : Nat
  rare_collectible_health_value : Nat
  collectibles_follow_path : Bool
  collectible_cluster_size_min : Nat
  collectible_cluster_size_max : Nat
  theme : String
  background_variants : Nat
  sprite_scale : ℚ
  music_volume : ℚ
  jump_sfx_volume : ℚ
  hit_sfx_volume : ℚ
  pickup_sfx_volume : ℚ
  player_fall_respawn_offset : ℚ
  auto_respawn_collectibles : Bool
  ground_row_y_factor : ℚ
  key_left_primary : String
  key_left_alt : String
  key_right_primary : String
  key_right_alt : String
  key_jump_primary : String
  key_jump_alt : String
  enemy_speed_level_scale : ℚ
  max_enemies_level_scale : ℚ
  min_enemies_level_scale : ℚ
  min_collectibles_level_scale : ℚ
  max_collectibles_level_scale : ℚ
  world_width_screens : ℚ
  world_height_screens : ℚ
  platform_density_bottom : ℚ
  platform_density_top : ℚ
  moving_platform_enabled : Bool
  moving_platform_vertical : Bool
  moving_platform_speed : ℚ
  moving_platform_amplitude : ℚ
  collectible_bob_enabled : Bool
  collectible_bob_amplitude : ℚ
  collectible_bob_speed : ℚ
  enemy_jump_enabled : Bool
  enemy_jump_interval : ℚ
  enemy_jump_strength : ℚ
  boss_level_interval : Nat
  boss_mode : String
  boss_collectibles_multiplier : ℚ
  boss_enemy_speed_multiplier : ℚ
  boss_enemy_damage_multiplier : ℚ
  boss_enemy_count_multiplier : ℚ
  enemy_shoot_enabled : Bool
  enemy_shoot_interval : ℚ
  enemy_shoot_range : ℚ
  projectile_speed : ℚ
  projectile_damage : Nat
  particles_enabled : Bool
  jump_particle_count : Nat
  hit_particle_count : Nat
  pickup_particle_count : Nat
  editor : EditorOptions
deriving DecidableEq

/-- The Default impl for GameRules from generator.rs (the audio and
asset-generation tunables of the source record are outside the embedded
core and omitted from the Lean record). -/
def GameRules.default : GameRules where
  seed := none
  mode := "normal"
  control_scheme := "both"
  enemy_enabled := true
  collectible_enabled := true
  sfx_enabled := true
  music_enabled := true
  show_fps := false
  vsync_enabled := true
  resolution_index := 1
  debug_overlay := false
  collectibles_for_level_up := 100
  max_level := 1000
  player_start_health := 5
  player_max_health := 3
  enemy_contact_damage := 1
  hit_invincibility_duration := 1/2
  hit_flash_enabled := true
  player_move_speed := 220
  player_jump_strength := 420
  gravity := 900
  enemy_speed := 80
  enemy_gravity_scale := 0
  enemy_spawn_rows := 2
  min_enemies := 3
  max_enemies := 8
  min_collectibles := 3
  max_collectibles := 6
  platform_rows := 4
  min_platforms_per_row := 3
  max_platforms_per_row := 6
  platform_min_gap_x := 80
  platform_max_gap_x := 200
  platform_min_y := 3/10
  platform_max_y := 85/100
  ground_row_enabled := true
  enemy_on_platform_chance := 1/2
  collectible_value := 1
  rare_collectible_chance := 1/10
  rare_collectible_value := 5
  collectible_health_value := 1
  rare_collectible_health_value := 5
  collectibles_follow_path := false
  collectible_cluster_size_min := 1
  collectible_cluster_size_max := 3
  theme := "default"
  background_variants := 2
  sprite_scale := 1
  music_volume := 3/10
  jump_sfx_volume := 35/100
  hit_sfx_volume := 1/2
  pickup_sfx_volume := 2/5
  player_fall_respawn_offset := 200
  auto_respawn_collectibles := true
  ground_row_y_factor := 92/100
  key_left_primary := "A"
  key_left_alt := "Left"
  key_right_primary := "D"
  key_right_alt := "Right"
  key_jump_primary := "Space"
  key_jump_alt := "W"
  enemy_speed_level_scale := 0
  max_enemies_level_scale := 0
  min_enemies_level_scale := 0
  min_collectibles_level_scale := 0
  max_collectibles_level_scale := 0
  world_width_screens := 2
  world_height_screens := 3
  platform_density_bottom := 3/2
  platform_density_top := 1/2
  moving_platform_enabled := false
  moving_platform_vertical := false
  moving_platform_speed := 1
  moving_platform_amplitude := 32
  collectible_bob_enabled := false
  collectible_bob_amplitude := 6
  collectible_bob_speed := 2
  enemy_jump_enabled := false
  enemy_jump_interval := 2
  enemy_jump_strength := 220
  boss_level_interval := 5
  boss_mode := "collect_fest"
  boss_collectibles_multiplier := 3
  boss_enemy_speed_multiplier := 3/2
  boss_enemy_damage_multiplier := 2
  boss_enemy_count_multiplier := 2
  enemy_shoot_enabled := false
  enemy_shoot_interval := 5/2
  enemy_shoot_range := 320
  projectile_speed := 260
  projectile_damage := 1
  particles_enabled := true
  jump_particle_count := 10
  hit_particle_count := 18
  pickup_particle_count := 12
  editor := ⟨false, false, false⟩

/-- parse_key from generator.rs: single ASCII letters and a few named keys;
none for anything unrecognized. -/
def parse_key (name : String) : Option KeyCode :=
  let s := name.trim
  if s.isEmpty then none
  else if s.length = 1 then
    match (s.data.head?.map upperChar).getD ' ' with
    | 'A' => some KeyCode.A
    | 'B' => some KeyCode.B
    | 'C' => some KeyCode.C
    | 'D' => some KeyCode.D
    | 'E' => some KeyCode.E
    | 'F' => some KeyCode.F
    | 'G' => some KeyCode.G
    | 'H' => some KeyCode.H
    | 'I' => some KeyCode.I
    | 'J' => some KeyCode.J
    | 'K' => some KeyCode.K
    | 'L' => some KeyCode.L
    | 'M' => some KeyCode.M
    | 'N' => some KeyCode.N
    | 'O' => some KeyCode.O
    | 'P' => some KeyCode.P
    | 'Q' => some KeyCode.Q
    | 'R' => some KeyCode.R
    | 'S' => some KeyCode.S
    | 'T' => some KeyCode.T
    | 'U' => some KeyCode.U
    | 'V' => some KeyCode.V
    | 'W' => some KeyCode.W
    | 'X' => some KeyCode.X
    | 'Y' => some KeyCode.Y
    | 'Z' => some KeyCode.Z
    | _ => none
  else
    match upperStr s with
    | "LEFT" => some KeyCode.Left
    | "RIGHT" => some KeyCode.Right
    | "UP" => some KeyCode.Up
    | "DOWN" => some KeyCode.Down
    | "SPACE" => some KeyCode.Space
    | "SPACEBAR" => some KeyCode.Space
    | "ESC" => some KeyCode.Escape
    | "ESCAPE" => some KeyCode.Escape
    | _ => none

/-- parse_optional_key from generator.rs. -/
def parse_optional_key (name : String) : Option KeyCode :=
  let trimmed := name.trim
  if trimmed.isEmpty then none else parse_key trimmed

/-- build_input_config from generator.rs. -/
def build_input_config (rules : GameRules) : InputConfig :=
  let scheme := lowerStr rules.control_scheme
  match scheme with
  | "wasd" =>
    { move_left_primary := KeyCode.A, move_left_alt := none
      move_right_primary := KeyCode.D, move_right_alt := none
      jump_primary := KeyCode.Space, jump_alt := some KeyCode.W }
  | "arrows" =>
    { move_left_primary := KeyCode.Left, move_left_alt := none
      move_right_primary := KeyCode.Right, move_right_alt := none
      jump_primary := KeyCode.Up, jump_alt := none }
  | "custom" =>
    { move_left_primary := (parse_key rules.key_left_primary).getD KeyCode.A
      move_left_alt := parse_optional_key rules.key_left_alt
      move_right_primary := (parse_key rules.key_right_primary).getD KeyCode.D
      move_right_alt := parse_optional_key rules.key_right_alt
      jump_primary := (parse_key rules.key_jump_primary).getD KeyCode.Space
      jump_alt := parse_optional_key rules.key_jump_alt }
  | _ =>
    { move_left_primary := KeyCode.A, move_left_alt := some KeyCode.Left
      move_right_primary := KeyCode.D, move_right_alt := some KeyCode.Right
      jump_primary := KeyCode.Space, jump_alt := some KeyCode.W }

/-- The boss-level modifier block of generate_scene (generator.rs lines
327-351): the effective enemy toggle, collectible multiplier, and the three
enemy multipliers after boss-mode dispatch. -/
structure BossMods where
  enemy_enabled : Bool
  collectible_multiplier : ℚ
  enemy_speed_mult : ℚ
  enemy_damage_mult : ℚ
  enemy_count_mult : ℚ
deriving DecidableEq

/-- The boss-level detection and modifier dispatch of generate_scene. -/
def bossMods (rules : GameRules) (level : Nat) : BossMods :=
  let is_boss_level :=
    rules.boss_level_interval > 0 ∧ level > 0 ∧ level % rules.boss_level_interval = 0
  if is_boss_level then
    match lowerStr rules.boss_mode with
    | "collect_fest" =>
      ⟨false, max rules.boss_collectibles_multiplier 1, 1, 1, 1⟩
    | "collectfest" =>
      ⟨false, max rules.boss_collectibles_multiplier 1, 1, 1, 1⟩
    | "collect" =>
      ⟨false, max rules.boss_collectibles_multiplier 1, 1, 1, 1⟩
    | "boss_enemy" =>
      ⟨rules.enemy_enabled, 1, max rules.boss_enemy_speed_multiplier 0,
        max rules.boss_enemy_damage_multiplier 0, max rules.boss_enemy_count_multiplier 0⟩
    | "boss" =>
      ⟨rules.enemy_enabled, 1, max rules.boss_enemy_speed_multiplier 0,
        max rules.boss_enemy_damage_multiplier 0, max rules.boss_enemy_count_multiplier 0⟩
    | _ => ⟨rules.enemy_enabled, 1, 1, 1, 1⟩
  else ⟨rules.enemy_enabled, 1, 1, 1, 1⟩

/-- The per-row platform cap from the minimum gap (generate_scene): the
number of platforms of minimum gap width that fit across the world, or the
configured maximum when no positive gap is configured. -/
def max_by_gap (rules : GameRules) (screen_size : Vec2) : Nat :=
  if rules.platform_min_gap_x > 0 then
    qToUsize (max (screen_size.x / rules.platform_min_gap_x) 1)
  else rules.max_platforms_per_row

/-- The inner platform loop of generate_scene (for _ in 0..count): choose a
sprite, skip zero-width sprites, draw an x within margins and a phase, and
append the platform. -/
def spawn_platform_row (sprites : List SpriteAsset) (rules : GameRules) (screen_size : Vec2)
    (y : ℚ) : Nat → List Platform → Rng → Option (List Platform × Rng)
  | 0, platforms, g => some (platforms, g)
  | n + 1, platforms, g =>
    let (spr, g) := choose_random sprites g
    match spr with
    | none => spawn_platform_row sprites rules screen_size y n platforms g
    | some sprite =>
      let tex_w := sprite.texture.width * rules.sprite_scale
      if tex_w ≤ 0 then spawn_platform_row sprites rules screen_size y n platforms g
      else
        let margin := tex_w / 2
        match gen_range_q margin (screen_size.x - margin) g with
        | none => none
        | some (x, g) =>
          match gen_range_q 0 tau32 g with
          | none => none
          | some (phase, g) =>
            let p : Platform :=
              { texture := sprite.texture
                position := vec2 x y
                base_position := vec2 x y
                phase := phase
                moving := rules.moving_platform_enabled
                vertical := rules.moving_platform_vertical }
            spawn_platform_row sprites rules screen_size y n (platforms ++ [p]) g

/-- The row loop of generate_scene: interpolated row height, density-blended
count bounds, a drawn count, then the inner platform loop; rows are indexed
from 0, here counted down by the remaining argument. -/
def platform_rows_loop (sprites : List SpriteAsset) (rules : GameRules) (screen_size : Vec2)
    (max_y height_span : ℚ) (rows : Nat) :
    Nat → List Platform → Rng → Option (List Platform × Rng)
  | 0, platforms, g => some (platforms, g)
  | k + 1, platforms, g =>
    let row := rows - (k + 1)
    let t : ℚ := if rows = 1 then 1/2 else (row : ℚ) / ((rows - 1 : Nat) : ℚ)
    let y := max_y - t * height_span
    let base_max := min rules.max_platforms_per_row (max (max_by_gap rules screen_size) 1)
    let base_min := max (min rules.min_platforms_per_row base_max) 1
    let density :=
      max (rules.platform_density_bottom
        + (rules.platform_density_top - rules.platform_density_bottom) * t) (1/10)
    let max_for_row := qToUsize (max (rustRound ((base_max : ℚ) * density)) 1)
    let min_for_row := max (min base_min max_for_row) 1
    match gen_range_nat min_for_row max_for_row g with
    | none => none
    | some (count, g) =>
      match spawn_platform_row sprites rules screen_size y count platforms g with
      | none => none
      | some (platforms, g) =>
        platform_rows_loop sprites rules screen_size max_y height_span rows k platforms g

/-- The optional ground row of generate_scene: same per-row algorithm at the
configured height fraction. -/
def spawn_ground_row (sprites : List SpriteAsset) (rules : GameRules) (screen_size : Vec2)
    (platforms : List Platform) (g : Rng) : Option (List Platform × Rng) :=
  if rules.ground_row_enabled then
    let y := screen_size.y * (min (max rules.ground_row_y_factor 0) 2)
    let max_for_row := min rules.max_platforms_per_row (max (max_by_gap rules screen_size) 1)
    let min_for_row := max (min rules.min_platforms_per_row max_for_row) 1
    match gen_range_nat min_for_row max_for_row g with
    | none => none
    | some (count, g) => spawn_platform_row sprites rules screen_size y count platforms g
  else some (platforms, g)

/-- The platform phase of generate_scene: skipped entirely when no platform
sprite exists; otherwise the row loop then the ground row. -/
def spawn_platforms (assets : Assets) (rules : GameRules) (screen_size : Vec2)
    (scene : Scene) (g : Rng) : Option (Scene × Rng) :=
  let platform_sprites := assets.sprites_of_kind SpriteKind.Platform
  if platform_sprites.isEmpty then some (scene, g)
  else
    let rows := max rules.platform_rows 1
    let min_y := min ((min (max rules.platform_min_y 0) 1) * screen_size.y) screen_size.y
    let max_y := max ((min (max rules.platform_max_y 0) 1) * screen_size.y) (min_y + 1)
    let height_span := max (max_y - min_y) 1
    match platform_rows_loop platform_sprites rules screen_size max_y height_span rows rows
        scene.platforms g with
    | none => none
    | some (platforms, g) =>
      match spawn_ground_row platform_sprites rules screen_size platforms g with
      | none => none
      | some (platforms, g) => some ({ scene with platforms := platforms }, g)

/-- The player phase of generate_scene: a randomly chosen player sprite
spawned horizontally centered at y = 0, or nothing when no sprite exists. -/
def spawn_player (assets : Assets) (screen_size : Vec2) (scene : Scene) (g : Rng) :
    Scene × Rng :=
  let players := assets.sprites_of_kind SpriteKind.Player
  let (pa, g) := choose_random players g
  match pa with
  | some player_asset =>
    let player_pos := vec2 (screen_size.x / 2) 0
    ({ scene with entities := scene.entities ++
        [{ kind := EntityKind.Player
           texture := player_asset.texture
           position := player_pos
           velocity := Vec2.zero
           value := 0
           health_value := 0
           base_position := player_pos
           phase := 0
           jumping := false }] }, g)
  | none => (scene, g)

/-- The inner enemy loop of generate_scene: choose a sprite, maybe rest on a
random platform (the platform-chance draw is short-circuited away when the
scene has no platform), otherwise a spawn-row position with a random x, a
coin-flip direction and a random phase. -/
def spawn_enemy_loop (enemies : List SpriteAsset) (rules : GameRules) (screen_size : Vec2)
    (effective_enemy_speed : ℚ) : Nat → Scene → Rng → Option (Scene × Rng)
  | 0, scene, g => some (scene, g)
  | n + 1, scene, g =>
    let (ea, g) := choose_random enemies g
    match ea with
    | none => spawn_enemy_loop enemies rules screen_size effective_enemy_speed n scene g
    | some enemy_asset =>
      let (use_platform, g) :=
        if scene.platforms.isEmpty then (false, g)
        else
          let (v, g) := gen_unit g
          (decide (v < rules.enemy_on_platform_chance), g)
      let posRes : Option (ℚ × ℚ × Rng) :=
        if use_platform then
          match gen_index scene.platforms.length g with
          | none => none
          | some (idx, g) =>
            match scene.platforms.get? idx with
            | none => none
            | some p =>
              some (p.position.x,
                p.position.y - enemy_asset.texture.height * rules.sprite_scale, g)
        else
          let rows := max rules.enemy_spawn_rows 1
          match gen_index rows g with
          | none => none
          | some (row, g) =>
            let min_y := min ((min (max rules.platform_min_y 0) 1) * screen_size.y) screen_size.y
            let max_y := max ((min (max rules.platform_max_y 0) 1) * screen_size.y) (min_y + 1)
            let span := max (max_y - min_y) 1
            let t : ℚ := if rows = 1 then 1/2 else (row : ℚ) / ((rows - 1 : Nat) : ℚ)
            let y := max_y - t * span
            match gen_range_q 0 screen_size.x g with
            | none => none
            | some (x, g) => some (x, y, g)
      match posRes with
      | none => none
      | some (x, y, g) =>
        let (b, g) := gen_bool_half g
        let dir : ℚ := if b then 1 else -1
        match gen_range_q 0 tau32 g with
        | none => none
        | some (phase, g) =>
          let e : Entity :=
            { kind := EntityKind.Enemy
              texture := enemy_asset.texture
              position := vec2 x y
              velocity := vec2 (dir * effective_enemy_speed) 0
              value := 0
              health_value := 0
              base_position := vec2 x y
              phase := phase
              jumping := rules.enemy_jump_enabled }
          spawn_enemy_loop enemies rules screen_size effective_enemy_speed n
            { scene with entities := scene.entities ++ [e] } g

/-- The enemy phase of generate_scene: when the (boss-adjusted) toggle is on
and enemy sprites exist, draw a count in the effective range and run the
inner loop. -/
def spawn_enemies (assets : Assets) (rules : GameRules) (screen_size : Vec2)
    (effective_enemy_speed : ℚ) (effective_min_enemies effective_max_enemies : Nat)
    (enemy_enabled : Bool) (scene : Scene) (g : Rng) : Option (Scene × Rng) :=
  let enemies := assets.sprites_of_kind SpriteKind.Enemy
  if enemy_enabled && !enemies.isEmpty then
    match gen_range_nat effective_min_enemies effective_max_enemies g with
    | none => none
    | some (enemy_count, g) =>
      spawn_enemy_loop enemies rules screen_size effective_enemy_speed enemy_count scene g
  else some (scene, g)

/-- The collectible entity pushed by spawn_collectibles for a chosen sprite
on a platform, with the rare roll already made. -/
def mk_collectible (rules : GameRules) (sprite : SpriteAsset) (platform : Platform)
    (is_rare : Bool) (phase : ℚ) : Entity :=
  let x := platform.position.x
  let y := platform.position.y - sprite.texture.height * rules.sprite_scale
  let value := if is_rare then rules.rare_collectible_value else rules.collectible_value
  let health_value :=
    if is_rare then rules.rare_collectible_health_value else rules.collectible_health_value
  { kind := EntityKind.Collectible
    texture := sprite.texture
    position := vec2 x y
    velocity := Vec2.zero
    value := value
    health_value := health_value
    base_position := vec2 x y
    phase := phase
    jumping := false }

/-- The path-mode inner loop of spawn_collectibles: one collectible per
platform of a contiguous run of the x-sorted index list, counted down by the
remaining argument (member index is cluster_size - remaining). -/
def place_path_cluster (sprites : List SpriteAsset) (rules : GameRules)
    (platform_indices : List Nat) (start_idx cluster_size : Nat) :
    Nat → Scene → Rng → Option (Scene × Rng)
  | 0, scene, g => some (scene, g)
  | k + 1, scene, g =>
    let i := cluster_size - (k + 1)
    match platform_indices.get? (start_idx + i) with
    | none => none
    | some p_index =>
      match scene.platforms.get? p_index with
      | none => none
      | some platform =>
        let (spr, g) := choose_random sprites g
        match spr with
        | none =>
          place_path_cluster sprites rules platform_indices start_idx cluster_size k scene g
        | some sprite =>
          let (v, g) := gen_unit g
          let is_rare := decide (v < rules.rare_collectible_chance)
          match gen_range_q 0 tau32 g with
          | none => none
          | some (phase, g) =>
            let e := mk_collectible rules sprite platform is_rare phase
            place_path_cluster sprites rules platform_indices start_idx cluster_size k
              { scene with entities := scene.entities ++ [e] } g

/-- The scatter-mode inner loop of spawn_collectibles: each member is placed
on an independently drawn random platform. -/
def place_scatter_cluster (sprites : List SpriteAsset) (rules : GameRules) :
    Nat → Scene → Rng → Option (Scene × Rng)
  | 0, scene, g => some (scene, g)
  | k + 1, scene, g =>
    match gen_index scene.platforms.length g with
    | none => none
    | some (platform_index, g) =>
      match scene.platforms.get? platform_index with
      | none => none
      | some platform =>
        let (spr, g) := choose_random sprites g
        match spr with
        | none => place_scatter_cluster sprites rules k scene g
        | some sprite =>
          let (v, g) := gen_unit g
          let is_rare := decide (v < rules.rare_collectible_chance)
          match gen_range_q 0 tau32 g with
          | none => none
          | some (phase, g) =>
            let e := mk_collectible rules sprite platform is_rare phase
            place_scatter_cluster sprites rules k
              { scene with entities := scene.entities ++ [e] } g

/-- The budget loop of spawn_collectibles: repeatedly draw a cluster size
(clamped to the remaining budget, floored at 1), place the cluster in path
or scatter mode, until the budget is exhausted.  The list of drawn cluster
sizes is returned as an observation trace. -/
def cluster_loop (sprites : List SpriteAsset) (rules : GameRules)
    (platform_indices : List Nat) (cluster_min cluster_max : Nat)
    (remaining : Nat) (scene : Scene) (g : Rng) : Option (List Nat × Scene × Rng) :=
  if hr : remaining = 0 then some ([], scene, g)
  else
    match gen_range_nat cluster_min cluster_max g with
    | none => none
    | some (d, g1) =>
      let cluster_size := max (min d remaining) 1
      if scene.platforms.isEmpty then some ([cluster_size], scene, g1)
      else
        let placed :=
          if rules.collectibles_follow_path ∧ platform_indices.length ≥ cluster_size then
            match gen_range_nat 0 (platform_indices.length - cluster_size) g1 with
            | none => none
            | some (start_idx, g2) =>
              place_path_cluster sprites rules platform_indices start_idx cluster_size
                cluster_size scene g2
          else place_scatter_cluster sprites rules cluster_size scene g1
        match placed with
        | none => none
        | some (scene2, g3) =>
          match cluster_loop sprites rules platform_indices cluster_min cluster_max
              (remaining - cluster_size) scene2 g3 with
          | none => none
          | some (rest, scene3, g4) => some (cluster_size :: rest, scene3, g4)
termination_by remaining
decreasing_by
  exact Nat.sub_lt (Nat.pos_of_ne_zero hr) (lt_of_lt_of_le Nat.zero_lt_one (le_max_right _ 1))

/-- The x-coordinate of the platform at an index (used by the sort of
spawn_collectibles; indices are always in range). -/
def platX (platforms : List Platform) (i : Nat) : ℚ :=
  ((platforms.get? i).map (fun p => p.position.x)).getD 0

/-- The observation trace of one spawn_collectibles call: the drawn base
total, the multiplied total budget, and the drawn cluster sizes. -/
structure CollectTrace where
  base_total : Nat
  total : Nat
  clusters : List Nat
deriving DecidableEq

/-- spawn_collectibles from generator.rs, instrumented with its observation
trace (none when the early no-op return is taken). -/
def spawn_collectibles_traced (scene : Scene) (assets : Assets) (rules : GameRules)
    (level : Nat) (g : Rng) (multiplier : ℚ) : Option (Option CollectTrace × Scene × Rng) :=
  let collectible_sprites := assets.sprites_of_kind SpriteKind.Collectible
  if !rules.collectible_enabled || collectible_sprites.isEmpty || scene.platforms.isEmpty then
    some (none, scene, g)
  else
    let level_index : ℚ := ((level - 1 : Nat) : ℚ)
    let min_factor := 1 + rules.min_collectibles_level_scale * level_index
    let max_factor := 1 + rules.max_collectibles_level_scale * level_index
    let base_min := max rules.min_collectibles 0
    let base_max := max rules.max_collectibles base_min
    let effective_min := qToUsize (max (rustRound ((base_min : ℚ) * min_factor)) 0)
    let effective_max := qToUsize (max (rustRound ((base_max : ℚ) * max_factor)) (effective_min : ℚ))
    match gen_range_nat effective_min (max effective_max effective_min) g with
    | none => none
    | some (base_total, g) =>
      let total := qToUsize (max (rustRound ((base_total : ℚ) * max multiplier 0)) 0)
      let cluster_min := max rules.collectible_cluster_size_min 1
      let cluster_max := max rules.collectible_cluster_size_max cluster_min
      let platform_indices := (List.range scene.platforms.length).mergeSort
        (fun a b => decide (platX scene.platforms a ≤ platX scene.platforms b))
      match cluster_loop collectible_sprites rules platform_indices cluster_min cluster_max
          total scene g with
      | none => none
      | some (clusters, scene, g) => some (some ⟨base_total, total, clusters⟩, scene, g)

/-- spawn_collectibles from generator.rs (trace dropped). -/
def spawn_collectibles (scene : Scene) (assets : Assets) (rules : GameRules)
    (level : Nat) (g : Rng) (multiplier : ℚ) : Option (Scene × Rng) :=
  (spawn_collectibles_traced scene assets rules level g multiplier).map (fun r => (r.2.1, r.2.2))

/-- CustomLevelEntity from generator.rs. -/
structure CustomLevelEntity where
  sprite : String
  x : ℚ
  y : ℚ
  moving : Bool
  vertical : Bool
  jumping : Bool
deriving DecidableEq

/-- CustomLevelCollectible from generator.rs. -/
structure CustomLevelCollectible where
  sprite : String
  x : ℚ
  y : ℚ
  value : Nat
  health : Nat
deriving DecidableEq

/-- CustomLevel from generator.rs: an authored level definition parsed from
the external JSON collaborator. -/
structure CustomLevel where
  player_start : Option CustomLevelEntity
  platforms : List CustomLevelEntity
  enemies : List CustomLevelEntity
  collectibles : List CustomLevelCollectible
deriving DecidableEq

/-- apply_custom_level_def from generator.rs: populate the scene from an
authored layout; none models the false return (no player sprite loaded), in
which case the caller falls back to procedural generation. -/
def apply_custom_level_def (scene : Scene) (assets : Assets) (rules : GameRules)
    (defn : CustomLevel) : Option Scene :=
  match (assets.sprites_of_kind SpriteKind.Player).head? with
  | none => none
  | some base_sprite =>
    let pxy := match defn.player_start with
      | some start => (start.x, start.y)
      | none => (scene.world_width / 2, (0 : ℚ))
    let player : Entity :=
      { kind := EntityKind.Player
        texture := base_sprite.texture
        position := vec2 pxy.1 pxy.2
        velocity := Vec2.zero
        value := 0
        health_value := 0
        base_position := vec2 pxy.1 pxy.2
        phase := 0
        jumping := false }
    let scene := { scene with entities := scene.entities ++ [player] }
    let scene := defn.platforms.foldl (fun scene p =>
      let sprite := (assets.sprite_by_kind_and_name SpriteKind.Platform p.sprite).orElse
        (fun _ => (assets.sprites_of_kind SpriteKind.Platform).head?)
      match sprite with
      | some s =>
        let pos := vec2 p.x p.y
        { scene with platforms := scene.platforms ++
            [{ texture := s.texture, position := pos, base_position := pos,
               phase := 0, moving := p.moving, vertical := p.vertical }] }
      | none => scene) scene
    let scene := defn.enemies.foldl (fun scene e_def =>
      let sprite := (assets.sprite_by_kind_and_name SpriteKind.Enemy e_def.sprite).orElse
        (fun _ => (assets.sprites_of_kind SpriteKind.Enemy).head?)
      match sprite with
      | some s =>
        let pos := vec2 e_def.x e_def.y
        { scene with entities := scene.entities ++
            [{ kind := EntityKind.Enemy, texture := s.texture, position := pos,
               velocity := vec2 rules.enemy_speed 0, value := 0, health_value := 0,
               base_position := pos, phase := 0, jumping := e_def.jumping }] }
      | none => scene) scene
    let scene := defn.collectibles.foldl (fun scene c =>
      let sprite := (assets.sprite_by_kind_and_name SpriteKind.Collectible c.sprite).orElse
        (fun _ => (assets.sprites_of_kind SpriteKind.Collectible).head?)
      match sprite with
      | some s =>
        let pos := vec2 c.x c.y
        let value := if c.value > 0 then c.value else rules.collectible_value
        let health_value := if c.health > 0 then c.health else rules.collectible_health_value
        { scene with entities := scene.entities ++
            [{ kind := EntityKind.Collectible, texture := s.texture, position := pos,
               velocity := Vec2.zero, value := value, health_value := health_value,
               base_position := pos, phase := 0, jumping := false }] }
      | none => scene) scene
    some scene

/-- generate_scene from generator.rs, instrumented with the collectible
observation trace.  The custom parameter is the authored-level collaborator
(the parsed level file, or none when missing or corrupt).  The source calls
Scene::new without values for the four behavior-mode parameters of its
signature (the rules record has no such fields); the embedding fills them
with the patrol defaults, which no claim depends on. -/
def generate_scene_traced (assets : Assets) (rules : GameRules) (level : Nat)
    (screen_size : Vec2) (custom : Option CustomLevel) (g : Rng) :
    Option ((Scene × Option CollectTrace) × Rng) :=
  let input := build_input_config rules
  let level_index : ℚ := ((level - 1 : Nat) : ℚ)
  let enemy_speed_factor := 1 + rules.enemy_speed_level_scale * level_index
  let max_enemies_factor := 1 + rules.max_enemies_level_scale * level_index
  let min_enemies_factor := 1 + rules.min_enemies_level_scale * level_index
  let effective_enemy_speed := max (rules.enemy_speed * enemy_speed_factor) 0
  let effective_min_enemies :=
    qToUsize (max (rustRound ((rules.min_enemies : ℚ) * min_enemies_factor)) 1)
  let effective_max_enemies :=
    qToUsize (max (rustRound ((rules.max_enemies : ℚ) * max_enemies_factor))
      (effective_min_enemies : ℚ))
  let bm := bossMods rules level
  let effective_enemy_speed := effective_enemy_speed * bm.enemy_speed_mult
  let effective_min_enemies :=
    qToUsize (max (rustRound ((effective_min_enemies : ℚ) * bm.enemy_count_mult)) 1)
  let effective_max_enemies :=
    qToUsize (max (rustRound ((effective_max_enemies : ℚ) * bm.enemy_count_mult))
      (effective_min_enemies : ℚ))
  let effective_enemy_contact_damage :=
    qToU32 (max (rustRound (((max rules.enemy_contact_damage 1 : Nat) : ℚ)
      * bm.enemy_damage_mult)) 1)
  let scene := Scene.new rules.player_move_speed rules.player_jump_strength rules.gravity
    effective_enemy_speed rules.enemy_gravity_scale rules.sprite_scale
    rules.player_start_health rules.player_max_health effective_enemy_contact_damage
    rules.hit_invincibility_duration rules.hit_flash_enabled rules.player_fall_respawn_offset
    rules.jump_sfx_volume rules.hit_sfx_volume rules.pickup_sfx_volume input
    screen_size.x screen_size.y rules.moving_platform_enabled rules.moving_platform_vertical
    rules.moving_platform_speed rules.moving_platform_amplitude rules.collectible_bob_enabled
    rules.collectible_bob_amplitude rules.collectible_bob_speed rules.enemy_jump_enabled
    rules.enemy_jump_interval rules.enemy_jump_strength rules.enemy_shoot_enabled
    rules.enemy_shoot_interval rules.enemy_shoot_range rules.projectile_speed
    rules.projectile_damage rules.particles_enabled rules.jump_particle_count
    rules.hit_particle_count rules.pickup_particle_count "patrol" 0 0 0
  let backgrounds := assets.sprites_of_kind SpriteKind.Background
  let (bg, g) := choose_random backgrounds g
  let scene := match bg with
    | some bg_asset => { scene with background := some bg_asset.texture }
    | none => scene
  let customResult :=
    if lowerStr rules.mode = "custom" then
      match custom with
      | some defn => apply_custom_level_def scene assets rules defn
      | none => none
    else none
  match customResult with
  | some scene => some ((scene, none), g)
  | none =>
    match spawn_platforms assets rules screen_size scene g with
    | none => none
    | some (scene, g) =>
      let (scene, g) := spawn_player assets screen_size scene g
      match spawn_enemies assets rules screen_size effective_enemy_speed
          effective_min_enemies effective_max_enemies bm.enemy_enabled scene g with
      | none => none
      | some (scene, g) =>
        match spawn_collectibles_traced scene assets rules level g
            bm.collectible_multiplier with
        | none => none
        | some (trace, scene, g) => some ((scene, trace), g)

/-- generate_scene from generator.rs (trace dropped). -/
def generate_scene (assets : Assets) (rules : GameRules) (level : Nat)
    (screen_size : Vec2) (custom : Option CustomLevel) (g : Rng) : Option (Scene × Rng) :=
  (generate_scene_traced assets rules level screen_size custom g).map
    (fun r => (r.1.1, r.2))

/-- Number of entities of a given kind in a scene (an observation used by
the generator claims). -/
def countKind (k : EntityKind) (s : Scene) : Nat :=
  (s.entities.filter (fun e => decide (e.kind = k))).length

/-- The per-cluster budget bounds, checked along the drawn cluster list:
each drawn size lies in [min(cluster_min, remaining), min(cluster_max,
remaining)] for the budget remaining before it. -/
def clusterBounds (cmin cmax : Nat) : Nat → List Nat → Bool
  | _, [] => true
  | rem, c :: cs =>
    decide (min cmin rem ≤ c) && decide (c ≤ min cmax rem)
      && clusterBounds cmin cmax (rem - c) cs

/-- Math-function record used by concrete instances (values are irrelevant
to every claim). -/
def mfZero : MathFns := ⟨fun _ => 0, fun _ => 0, fun _ => 0⟩

/-- An idle keyboard snapshot. -/
def keysNone : KeyState := ⟨fun _ => false, fun _ => false⟩

/-- Texture fixture. -/
def texFix (i : Nat) (w h : ℚ) : Texture := ⟨i, w, h⟩

/-- Asset catalog fixture: one platform, one player and one collectible
sprite. -/
def exAssets : Assets := ⟨[
  ⟨"plat", texFix 1 64 16, SpriteKind.Platform⟩,
  ⟨"play", texFix 2 32 32, SpriteKind.Player⟩,
  ⟨"coin", texFix 3 20 20, SpriteKind.Collectible⟩]⟩

/-- Scene fixture built by Scene::new with the default rules values and an
800x600 world. -/
def baseScene : Scene :=
  Scene.new 220 420 900 80 0 1 5 3 1 (1/2) true 200 (35/100) (1/2) (2/5)
    ⟨KeyCode.A, none, KeyCode.D, none, KeyCode.Space, none⟩ 800 600
    false false 1 32 false 6 2 false 2 220 false (5/2) 320 260 1 true 10 18 12
    "patrol" 0 0 0

/-- Player entity fixture for the multi-hazard damage scene. -/
def c2Player : Entity :=
  { kind := EntityKind.Player, texture := texFix 2 32 32, position := vec2 400 300,
    velocity := Vec2.zero, value := 0, health_value := 0, base_position := vec2 400 300,
    phase := 0, jumping := false }

/-- Enemy entity fixture overlapping the player fixture. -/
def c2Enemy : Entity :=
  { kind := EntityKind.Enemy, texture := texFix 4 32 32, position := vec2 410 300,
    velocity := Vec2.zero, value := 0, health_value := 0, base_position := vec2 410 300,
    phase := 0, jumping := false }

/-- Projectile entity fixture overlapping the player fixture. -/
def c2Proj : Entity :=
  { kind := EntityKind.Projectile, texture := texFix 4 32 32, position := vec2 395 300,
    velocity := Vec2.zero, value := 0, health_value := 0, base_position := vec2 395 300,
    phase := 0, jumping := false }

/-- Scene fixture for the multi-hazard damage counterexample: the player
overlaps both an enemy and a projectile, no invincibility, a still world
(zero gravity, zero velocities, dt 0 in the tick). -/
def c2Scene : Scene := { baseScene with
  gravity := 0
  particles_enabled := false
  entities := [c2Player, c2Enemy, c2Proj] }

/-- Scene fixture for the world-bounds counterexample: a single motionless
enemy far beyond the left world edge. -/
def c7Scene : Scene := { baseScene with
  gravity := 0
  particles_enabled := false
  entities := [
    { kind := EntityKind.Enemy, texture := texFix 4 32 32, position := vec2 (-100) 300,
      velocity := Vec2.zero, value := 0, health_value := 0,
      base_position := vec2 (-100) 300, phase := 0, jumping := false }] }

/-- Rules fixture for the cluster-budget counterexample: a fixed total of 7
with cluster sizes pinned to 5. -/
def c4Rules : GameRules := { GameRules.default with
  min_collectibles := 7, max_collectibles := 7,
  collectible_cluster_size_min := 5, collectible_cluster_size_max := 5,
  boss_level_interval := 0 }

/-- Scene fixture with a single platform (the cluster placement target). -/
def c4Scene : Scene := { baseScene with
  platforms := [⟨texFix 1 64 16, vec2 400 500, vec2 400 500, 0, false, false⟩] }

/-- Rules fixture for the boss-scaling counterexample: every level is a
collect_fest boss level with multiplier 1/2 and a fixed base total of 4. -/
def c6Rules : GameRules := { GameRules.default with
  min_collectibles := 4, max_collectibles := 4,
  collectible_cluster_size_min := 1, collectible_cluster_size_max := 1,
  boss_level_interval := 1, boss_mode := "collect_fest",
  boss_collectibles_multiplier := 1/2,
  platform_rows := 1, min_platforms_per_row := 1, max_platforms_per_row := 1,
  ground_row_enabled := false }

/-- Player entity fixture resting exactly on the platform fixture top (used
by the ground-contact witness): bottom edge 516, platform top edge 516. -/
def c8Player : Entity :=
  { kind := EntityKind.Player, texture := texFix 2 32 32, position := vec2 400 500,
    velocity := Vec2.zero, value := 0, health_value := 0, base_position := vec2 400 500,
    phase := 0, jumping := false }

/-- Platform fixture under the resting player: center (400, 524), top edge
516. -/
def c8Platform : Platform :=
  ⟨texFix 1 64 16, vec2 400 524, vec2 400 524, 0, false, false⟩

/-- Scene fixture for the ground-contact witness. -/
def c8Scene : Scene := { baseScene with
  particles_enabled := false
  entities := [c8Player]
  platforms := [c8Platform] }

/-! Helper lemmas: which scene fields each tick phase leaves unchanged. -/

theorem tickParticles_player_health (dt : ℚ) (s : Scene) :
    (tickParticles dt s).player_health = s.player_health := by
  unfold tickParticles; split <;> rfl

theorem tickParticles_player_max_health (dt : ℚ) (s : Scene) :
    (tickParticles dt s).player_max_health = s.player_max_health := by
  unfold tickParticles; split <;> rfl

theorem tickParticles_player_dead (dt : ℚ) (s : Scene) :
    (tickParticles dt s).player_dead = s.player_dead := by
  unfold tickParticles; split <;> rfl

theorem tickEnemyTimers_player_health (dt : ℚ) (s : Scene) :
    (tickEnemyTimers dt s).player_health = s.player_health := by
  unfold tickEnemyTimers; dsimp only; split <;> split <;> rfl

theorem tickEnemyTimers_player_max_health (dt : ℚ) (s : Scene) :
    (tickEnemyTimers dt s).player_max_health = s.player_max_health := by
  unfold tickEnemyTimers; dsimp only; split <;> split <;> rfl

theorem tickEnemyTimers_player_dead (dt : ℚ) (s : Scene) :
    (tickEnemyTimers dt s).player_dead = s.player_dead := by
  unfold tickEnemyTimers; dsimp only; split <;> split <;> rfl

theorem movePlatforms_player_health (mf : MathFns) (s : Scene) :
    (movePlatforms mf s).player_health = s.player_health := by
  unfold movePlatforms; split <;> rfl

theorem movePlatforms_player_max_health (mf : MathFns) (s : Scene) :
    (movePlatforms mf s).player_max_health = s.player_max_health := by
  unfold movePlatforms; split <;> rfl

theorem movePlatforms_player_dead (mf : MathFns) (s : Scene) :
    (movePlatforms mf s).player_dead = s.player_dead := by
  unfold movePlatforms; split <;> rfl

theorem tickHitTimer_player_health (dt : ℚ) (s : Scene) :
    (tickHitTimer dt s).player_health = s.player_health := by
  unfold tickHitTimer; split <;> rfl

theorem tickHitTimer_player_max_health (dt : ℚ) (s : Scene) :
    (tickHitTimer dt s).player_max_health = s.player_max_health := by
  unfold tickHitTimer; split <;> rfl

theorem tickHitTimer_player_dead (dt : ℚ) (s : Scene) :
    (tickHitTimer dt s).player_dead = s.player_dead := by
  unfold tickHitTimer; split <;> rfl

theorem applyLoopOut_player_health (out : LoopOut) (s : Scene) :
    (applyLoopOut out s).player_health = s.player_health := by
  unfold applyLoopOut; dsimp only; split <;> split <;> rfl

theorem applyLoopOut_player_max_health (out : LoopOut) (s : Scene) :
    (applyLoopOut out s).player_max_health = s.player_max_health := by
  unfold applyLoopOut; dsimp only; split <;> split <;> rfl

theorem applyLoopOut_player_dead (out : LoopOut) (s : Scene) :
    (applyLoopOut out s).player_dead = s.player_dead := by
  unfold applyLoopOut; dsimp only; split <;> split <;> rfl

theorem cullProjectiles_player_health (s : Scene) :
    (cullProjectiles s).player_health = s.player_health := rfl

theorem cullProjectiles_player_max_health (s : Scene) :
    (cullProjectiles s).player_max_health = s.player_max_health := rfl

theorem cullProjectiles_player_dead (s : Scene) :
    (cullProjectiles s).player_dead = s.player_dead := rfl

theorem addNewParticles_player_health (ps : List Particle) (s : Scene) :
    (addNewParticles ps s).player_health = s.player_health := by
  unfold addNewParticles; split <;> rfl

theorem addNewParticles_player_max_health (ps : List Particle) (s : Scene) :
    (addNewParticles ps s).player_max_health = s.player_max_health := by
  unfold addNewParticles; split <;> rfl

theorem addNewParticles_player_dead (ps : List Particle) (s : Scene) :
    (addNewParticles ps s).player_dead = s.player_dead := by
  unfold addNewParticles; split <;> rfl

/-! Helper lemmas: health and death bookkeeping of the damage and pickup
phases. -/

theorem damageApply_player_max_health (mf : MathFns) (rect : Rect) (he hp : Bool)
    (s : Scene) : (damageApply mf rect he hp s).1.player_max_health = s.player_max_health := by
  unfold damageApply
  dsimp only
  split_ifs <;> rfl

theorem damageApply_player_health_le (mf : MathFns) (rect : Rect) (he hp : Bool)
    (s : Scene) : (damageApply mf rect he hp s).1.player_health ≤ s.player_health := by
  unfold damageApply
  dsimp only
  split_ifs <;> dsimp only <;> omega

theorem damageApply_dead_inv (mf : MathFns) (rect : Rect) (he hp : Bool) (s : Scene)
    (hinv : s.player_dead = decide (s.player_health = 0)) :
    (damageApply mf rect he hp s).1.player_dead
      = decide ((damageApply mf rect he hp s).1.player_health = 0) := by
  unfold damageApply
  dsimp only
  split_ifs <;> dsimp only <;>
    first
      | exact hinv
      | simp
      | (refine Eq.trans hinv ?_
         simp only [decide_eq_decide]
         omega)

theorem removeHitProjectiles_player_health (rect : Rect) (s : Scene) :
    (removeHitProjectiles rect s).player_health = s.player_health := rfl

theorem removeHitProjectiles_player_max_health (rect : Rect) (s : Scene) :
    (removeHitProjectiles rect s).player_max_health = s.player_max_health := rfl

theorem removeHitProjectiles_player_dead (rect : Rect) (s : Scene) :
    (removeHitProjectiles rect s).player_dead = s.player_dead := rfl

theorem damagePhase_player_max_health (mf : MathFns) (pr : Option Rect) (s : Scene) :
    (damagePhase mf pr s).1.player_max_health = s.player_max_health := by
  unfold damagePhase
  cases pr
  · rfl
  · dsimp only
    split_ifs <;>
      first
        | rfl
        | rw [removeHitProjectiles_player_max_health, damageApply_player_max_health]

theorem damagePhase_player_health_le (mf : MathFns) (pr : Option Rect) (s : Scene) :
    (damagePhase mf pr s).1.player_health ≤ s.player_health := by
  unfold damagePhase
  cases pr
  · exact le_refl _
  · dsimp only
    split_ifs <;>
      first
        | exact le_refl _
        | (rw [removeHitProjectiles_player_health]
           exact damageApply_player_health_le _ _ _ _ _)

theorem damagePhase_dead_inv (mf : MathFns) (pr : Option Rect) (s : Scene)
    (hinv : s.player_dead = decide (s.player_health = 0)) :
    (damagePhase mf pr s).1.player_dead
      = decide ((damagePhase mf pr s).1.player_health = 0) := by
  unfold damagePhase
  cases pr
  · exact hinv
  · dsimp only
    split_ifs <;>
      first
        | exact hinv
        | (rw [removeHitProjectiles_player_dead, removeHitProjectiles_player_health]
           exact damageApply_dead_inv _ _ _ _ _ hinv)

theorem collectPhase_player_max_health (mf : MathFns) (pr : Option Rect) (s : Scene) :
    (collectPhase mf pr s).1.player_max_health = s.player_max_health := by
  unfold collectPhase
  cases pr
  · rfl
  · dsimp only
    split_ifs <;> rfl

theorem collectPhase_health_bound (mf : MathFns) (pr : Option Rect) (s : Scene)
    (h : s.player_health ≤ s.player_max_health) :
    (collectPhase mf pr s).1.player_health ≤ s.player_max_health := by
  unfold collectPhase
  cases pr
  · exact h
  · dsimp only
    split_ifs <;> dsimp only
    · exact min_le_right _ _
    · exact h

theorem collectPhase_dead_inv (mf : MathFns) (pr : Option Rect) (s : Scene)
    (hinv : s.player_dead = decide (s.player_health = 0))
    (hb : s.player_health ≤ s.player_max_health) :
    (collectPhase mf pr s).1.player_dead
      = decide ((collectPhase mf pr s).1.player_health = 0) := by
  unfold collectPhase
  cases pr
  · exact hinv
  · dsimp only
    split_ifs <;> dsimp only <;>
      simp only [hinv, satAdd, u32Max, decide_eq_decide, decide_eq_true_eq] at * <;> omega

theorem preTick_player_health (dt : ℚ) (mf : MathFns) (s : Scene) :
    (preTick dt mf s).player_health = s.player_health := by
  unfold preTick
  rw [tickHitTimer_player_health, movePlatforms_player_health,
    tickEnemyTimers_player_health, tickParticles_player_health]

theorem preTick_player_max_health (dt : ℚ) (mf : MathFns) (s : Scene) :
    (preTick dt mf s).player_max_health = s.player_max_health := by
  unfold preTick
  rw [tickHitTimer_player_max_health, movePlatforms_player_max_health,
    tickEnemyTimers_player_max_health, tickParticles_player_max_health]

theorem preTick_player_dead (dt : ℚ) (mf : MathFns) (s : Scene) :
    (preTick dt mf s).player_dead = s.player_dead := by
  unfold preTick
  rw [tickHitTimer_player_dead, movePlatforms_player_dead,
    tickEnemyTimers_player_dead, tickParticles_player_dead]

/-- The health and maximum after a full tick, reduced to the damage and
pickup phases (the other phases leave all three player fields alone). -/
theorem update_health_decomposition (s : Scene) (dt : ℚ) (keys : KeyState) (mf : MathFns) :
    ∃ pr s₁, (s.update dt keys mf).player_health
        = (collectPhase mf pr (damagePhase mf pr s₁).1).1.player_health
      ∧ (s.update dt keys mf).player_max_health
        = (collectPhase mf pr (damagePhase mf pr s₁).1).1.player_max_health
      ∧ (s.update dt keys mf).player_dead
        = (collectPhase mf pr (damagePhase mf pr s₁).1).1.player_dead
      ∧ s₁.player_health = s.player_health
      ∧ s₁.player_max_health = s.player_max_health
      ∧ s₁.player_dead = s.player_dead := by
  refine ⟨playerRectOf (cullProjectiles (applyLoopOut (loopOutOf (preTick dt mf s) keys mf dt)
      (preTick dt mf s))),
    cullProjectiles (applyLoopOut (loopOutOf (preTick dt mf s) keys mf dt) (preTick dt mf s)),
    ?_, ?_, ?_, ?_, ?_, ?_⟩
  · show (addNewParticles _ _).player_health = _
    rw [addNewParticles_player_health]
  · show (addNewParticles _ _).player_max_health = _
    rw [addNewParticles_player_max_health]
  · show (addNewParticles _ _).player_dead = _
    rw [addNewParticles_player_dead]
  · rw [cullProjectiles_player_health, applyLoopOut_player_health, preTick_player_health]
  · rw [cullProjectiles_player_max_health, applyLoopOut_player_max_health,
      preTick_player_max_health]
  · rw [cullProjectiles_player_dead, applyLoopOut_player_dead, preTick_player_dead]

/-- C1: for every scene whose health respects its maximum (as every scene
built by Scene::new does) and every tick of Scene::update, afterwards
0 <= player_health <= player_max_health holds: the damage branch floors
health at 0 (the u32 model is a natural number, so nonnegativity is
intrinsic), and healing is capped with min at player_max_health. -/
theorem update_health_bound (s : Scene) (dt : ℚ) (keys : KeyState) (mf : MathFns)
    (h : s.player_health ≤ s.player_max_health) :
    (s.update dt keys mf).player_health ≤ (s.update dt keys mf).player_max_health := by
  obtain ⟨pr, s₁, hh, hm, _, h1, h2, _⟩ := update_health_decomposition s dt keys mf
  rw [hh, hm, collectPhase_player_max_health]
  apply collectPhase_health_bound
  rw [damagePhase_player_max_health]
  calc (damagePhase mf pr s₁).1.player_health
      ≤ s₁.player_health := damagePhase_player_health_le mf pr s₁
    _ ≤ s₁.player_max_health := by rw [h1, h2]; exact h

/-- C1 witness: the bound holds after one concrete tick of the fixture
scene. -/
theorem update_health_bound_witness :
    c2Scene.player_health ≤ c2Scene.player_max_health ∧
    (c2Scene.update 0 keysNone mfZero).player_health
      ≤ (c2Scene.update 0 keysNone mfZero).player_max_health :=
  ⟨by decide, update_health_bound c2Scene 0 keysNone mfZero (by decide)⟩

/-- C10: one tick of Scene::update preserves the invariant
player_dead == (player_health == 0), given the companion health bound
player_health <= player_max_health: player_dead is set exactly when damage
drives health to 0, the damage branch requires player_health > 0, and
healing also requires player_health > 0 (and cannot reach 0 again since the
maximum is at least the positive current health). -/
theorem update_dead_iff_health_zero (s : Scene) (dt : ℚ) (keys : KeyState) (mf : MathFns)
    (hinv : s.player_dead = decide (s.player_health = 0))
    (hb : s.player_health ≤ s.player_max_health) :
    (s.update dt keys mf).player_dead = decide ((s.update dt keys mf).player_health = 0) := by
  obtain ⟨pr, s₁, hh, _, hd, h1, h2, h3⟩ := update_health_decomposition s dt keys mf
  rw [hh, hd]
  apply collectPhase_dead_inv
  · apply damagePhase_dead_inv
    rw [h3, h1]; exact hinv
  · rw [damagePhase_player_max_health]
    calc (damagePhase mf pr s₁).1.player_health
        ≤ s₁.player_health := damagePhase_player_health_le mf pr s₁
      _ ≤ s₁.player_max_health := by rw [h1, h2]; exact hb

/-- C10 witness: the invariant survives one concrete tick of the fixture
scene (in which damage is actually applied). -/
theorem update_dead_iff_health_zero_witness :
    c2Scene.player_dead = decide (c2Scene.player_health = 0) ∧
    c2Scene.player_health ≤ c2Scene.player_max_health ∧
    (c2Scene.update 0 keysNone mfZero).player_dead
      = decide ((c2Scene.update 0 keysNone mfZero).player_health = 0) :=
  ⟨by decide, by decide,
    update_dead_iff_health_zero c2Scene 0 keysNone mfZero (by decide) (by decide)⟩

/-- C9: Scene::new clamps the starting health at construction: the stored
maximum is max(player_max_health, 1), the stored health is
player_start_health clamped into [1, that maximum], and with the default
rules (start 5, max 3) the clamp yields exactly the maximum. -/
theorem scene_new_health_clamped
    (ms js gr es egs ss : ℚ) (psh pmh ecd : Nat) (hid : ℚ) (hfe : Bool)
    (fro jsv hsv psv : ℚ) (inp : InputConfig) (ww wh : ℚ) (mpe mpv : Bool)
    (mps mpa : ℚ) (cbe : Bool) (cba cbs : ℚ) (eje : Bool) (eji ejs : ℚ)
    (ese : Bool) (esi esr : ℚ) (prs : ℚ) (prd : Nat) (pe : Bool)
    (jpc hpc ppc : Nat) (ebm : String) (ecr ecirc_r ecirc_s : ℚ) :
    (Scene.new ms js gr es egs ss psh pmh ecd hid hfe fro jsv hsv psv inp ww wh
        mpe mpv mps mpa cbe cba cbs eje eji ejs ese esi esr prs prd pe jpc hpc ppc
        ebm ecr ecirc_r ecirc_s).player_max_health = max pmh 1
    ∧ (Scene.new ms js gr es egs ss psh pmh ecd hid hfe fro jsv hsv psv inp ww wh
        mpe mpv mps mpa cbe cba cbs eje eji ejs ese esi esr prs prd pe jpc hpc ppc
        ebm ecr ecirc_r ecirc_s).player_health = min (max psh 1) (max pmh 1)
    ∧ min (max GameRules.default.player_start_health 1)
        (max GameRules.default.player_max_health 1)
      = GameRules.default.player_max_health :=
  ⟨rfl, rfl, by decide⟩

/-- C3: generation is deterministic: with the assets, rules, level, screen
size and authored-level collaborator fixed, two calls started from equal RNG
states return identical results (the same scene and the same final RNG
state, hence the same consumption order).  The embedding threads the RNG
state value explicitly, exactly where the source threads &mut rng, and
closes over no other state. -/
theorem generate_scene_deterministic (assets : Assets) (rules : GameRules) (level : Nat)
    (screen_size : Vec2) (custom : Option CustomLevel) (g₁ g₂ : Rng) (h : g₁ = g₂) :
    generate_scene assets rules level screen_size custom g₁
      = generate_scene assets rules level screen_size custom g₂ := by
  rw [h]

/-- C3 witness: determinism at a concrete seed and catalog. -/
theorem generate_scene_deterministic_witness :
    (Rng.mk 42 = Rng.mk 42) ∧
    generate_scene exAssets GameRules.default 1 (vec2 800 600) none ⟨42⟩
      = generate_scene exAssets GameRules.default 1 (vec2 800 600) none ⟨42⟩ :=
  ⟨rfl, generate_scene_deterministic exAssets GameRules.default 1 (vec2 800 600) none
    ⟨42⟩ ⟨42⟩ rfl⟩

/-- The hazard scan of the damage block can never report both hazard kinds:
it stops at the first overlapping hazard. -/
theorem scanHazards_not_both (scale : ℚ) (rect : Rect) (es : List Entity) :
    scanHazards scale rect es ≠ (true, true) := by
  induction es with
  | nil => simp [scanHazards]
  | cons e rest ih =>
    unfold scanHazards
    rcases e.kind <;> dsimp only <;> try exact ih
    · split
      · simp
      · exact ih
    · split
      · simp
      · exact ih

theorem removeHitProjectiles_hit_timer (rect : Rect) (s : Scene) :
    (removeHitProjectiles rect s).hit_timer = s.hit_timer := rfl

/-- C2 (amended): in a tick in which the player is alive, the invincibility
timer is not positive, and the hazard scan reports a hit, exactly one hazard
flag is set (the scan breaks at the first overlapping hazard in entity-list
order, so enemy and projectile damage are never summed in one tick); the
single damage application subtracts only that hazard's floored damage
(clamped at the current health) and starts the one shared invincibility
timer. -/
theorem damagePhase_single_hazard (mf : MathFns) (rect : Rect) (s : Scene)
    (halive : s.player_health > 0) (htimer : s.hit_timer ≤ 0) (he hp : Bool)
    (hscan : scanHazards s.sprite_scale rect s.entities = (he, hp))
    (hhit : he = true ∨ hp = true)
    (hecd : s.enemy_contact_damage ≤ u32Max) (hpd : s.projectile_damage ≤ u32Max) :
    ¬(he = true ∧ hp = true)
    ∧ (damagePhase mf (some rect) s).1.hit_timer = s.hit_invincibility_duration
    ∧ (damagePhase mf (some rect) s).1.player_health
        = s.player_health - min s.player_health
            (if he then max s.enemy_contact_damage 1 else max s.projectile_damage 1) := by
  have hnotboth : ¬(he = true ∧ hp = true) := by
    intro hb
    rw [hb.1, hb.2] at hscan
    exact scanHazards_not_both s.sprite_scale rect s.entities hscan
  refine ⟨hnotboth, ?_⟩
  unfold damagePhase
  dsimp only
  rw [if_pos halive, if_pos htimer, hscan]
  dsimp only
  have hcond : s.hit_timer ≤ 0 ∧ (he || hp) = true := by
    refine ⟨htimer, ?_⟩
    rcases hhit with h | h <;> simp [h]
  unfold damageApply
  rw [if_pos hcond]
  dsimp only
  have hdmg : damageOf { s with hit_timer := s.hit_invincibility_duration } he hp
      = (if he then max s.enemy_contact_damage 1 else max s.projectile_damage 1) := by
    rcases hhit with h | h
    · have hp' : hp = false := by
        cases hp
        · rfl
        · exact absurd ⟨h, rfl⟩ hnotboth
      subst h; rw [hp']
      unfold damageOf satAdd
      simp only [if_pos rfl, Bool.false_eq_true, if_false, if_true]
      unfold u32Max at hecd ⊢
      omega
    · have he' : he = false := by
        cases he
        · rfl
        · exact absurd ⟨rfl, h⟩ hnotboth
      subst h; rw [he']
      unfold damageOf satAdd
      simp only [Bool.false_eq_true, if_false, if_true]
      unfold u32Max at hpd ⊢
      omega
  rw [hdmg]
  refine ⟨?_, ?_⟩ <;>
    split_ifs <;>
      (try simp only [removeHitProjectiles_hit_timer, removeHitProjectiles_player_health]) <;>
        (try dsimp only) <;>
          first
            | rfl
            | omega

/-- C2 counterexample: at a concrete tick in which the player's box overlaps
both an enemy and a projectile (alive, no invincibility, contact damage 1
and projectile damage 1 each), the health drops from 3 to 2, not to the
3 - (1 + 1) = 1 the additive claim requires. -/
theorem update_damage_not_additive :
    c2Scene.player_health = 3
    ∧ c2Scene.hit_timer ≤ 0
    ∧ (entity_rect c2Enemy c2Scene.sprite_scale).overlaps
        (entity_rect c2Player c2Scene.sprite_scale) = true
    ∧ (entity_rect c2Proj c2Scene.sprite_scale).overlaps
        (entity_rect c2Player c2Scene.sprite_scale) = true
    ∧ c2Scene.enemy_contact_damage = 1 ∧ c2Scene.projectile_damage = 1
    ∧ (c2Scene.update 0 keysNone mfZero).player_health = 2
    ∧ (2 : Nat) ≠ 3 - (1 + 1) := by
  with_unfolding_all decide

/-- C2 witness: the amended single-hazard description at a concrete state
(the scan finds the enemy first and reports only it). -/
theorem damagePhase_single_hazard_witness :
    (c2Scene.player_health > 0 ∧ c2Scene.hit_timer ≤ 0
      ∧ scanHazards c2Scene.sprite_scale (entity_rect c2Player c2Scene.sprite_scale)
          c2Scene.entities = (true, false)
      ∧ c2Scene.enemy_contact_damage ≤ u32Max ∧ c2Scene.projectile_damage ≤ u32Max)
    ∧ (¬(true = true ∧ false = true)
      ∧ (damagePhase mfZero (some (entity_rect c2Player c2Scene.sprite_scale))
          c2Scene).1.hit_timer = c2Scene.hit_invincibility_duration
      ∧ (damagePhase mfZero (some (entity_rect c2Player c2Scene.sprite_scale))
          c2Scene).1.player_health
        = c2Scene.player_health - min c2Scene.player_health
            (if true then max c2Scene.enemy_contact_damage 1
             else max c2Scene.projectile_damage 1)) :=
  ⟨⟨by decide, by with_unfolding_all decide, by with_unfolding_all decide,
      by decide, by decide⟩,
    damagePhase_single_hazard mfZero (entity_rect c2Player c2Scene.sprite_scale) c2Scene
      (by decide) (by with_unfolding_all decide) true false
      (by with_unfolding_all decide) (Or.inl rfl) (by decide) (by decide)⟩

/-! Helper lemmas: the landing resolution and the per-entity steps preserve
entity identity (kind, texture) and horizontal position where the source
never writes them. -/

theorem resolveStep_kind (sc : ℚ) (st : Entity × Rect) (p : Platform) :
    (resolveStep sc st p).1.kind = st.1.kind := by
  unfold resolveStep; dsimp only; split_ifs <;> rfl

theorem resolveStep_texture (sc : ℚ) (st : Entity × Rect) (p : Platform) :
    (resolveStep sc st p).1.texture = st.1.texture := by
  unfold resolveStep; dsimp only; split_ifs <;> rfl

theorem resolveStep_x (sc : ℚ) (st : Entity × Rect) (p : Platform) :
    (resolveStep sc st p).1.position.x = st.1.position.x := by
  unfold resolveStep; dsimp only; split_ifs <;> rfl

theorem resolveFold_preserves (sc : ℚ) :
    ∀ (l : List Platform) (st : Entity × Rect),
      (l.foldl (resolveStep sc) st).1.kind = st.1.kind
      ∧ (l.foldl (resolveStep sc) st).1.texture = st.1.texture
      ∧ (l.foldl (resolveStep sc) st).1.position.x = st.1.position.x
  | [], st => ⟨rfl, rfl, rfl⟩
  | p :: l, st => by
    have ih := resolveFold_preserves sc l (resolveStep sc st p)
    simp only [List.foldl_cons]
    exact ⟨ih.1.trans (resolveStep_kind sc st p),
      ih.2.1.trans (resolveStep_texture sc st p),
      ih.2.2.trans (resolveStep_x sc st p)⟩

theorem resolve_pc_kind (e : Entity) (pls : List Platform) (sc : ℚ) :
    (resolve_platform_collisions e pls sc).kind = e.kind := by
  unfold resolve_platform_collisions
  split
  · rfl
  · exact (resolveFold_preserves sc pls _).1

theorem resolve_pc_texture (e : Entity) (pls : List Platform) (sc : ℚ) :
    (resolve_platform_collisions e pls sc).texture = e.texture := by
  unfold resolve_platform_collisions
  split
  · rfl
  · exact (resolveFold_preserves sc pls _).2.1

theorem resolve_pc_x (e : Entity) (pls : List Platform) (sc : ℚ) :
    (resolve_platform_collisions e pls sc).position.x = e.position.x := by
  unfold resolve_platform_collisions
  split
  · rfl
  · exact (resolveFold_preserves sc pls _).2.2

theorem clampRespawnPlayer_kind (s : Scene) (entity : Entity) :
    (clampRespawnPlayer s entity).kind = entity.kind := by
  unfold clampRespawnPlayer; dsimp only; split_ifs <;> rfl

theorem clampRespawnPlayer_texture (s : Scene) (entity : Entity) :
    (clampRespawnPlayer s entity).texture = entity.texture := by
  unfold clampRespawnPlayer; dsimp only; split_ifs <;> rfl

/-- The clamp keeps x within [half_width, world_width - half_width], and a
respawn puts it at the center of that interval, whenever the sprite width
fits the world. -/
theorem clampRespawnPlayer_x_bound (s : Scene) (entity : Entity) (w : ℚ)
    (hT : entity.texture.width = w) (h2w : w * s.sprite_scale ≤ s.world_width) :
    w * s.sprite_scale / 2 ≤ (clampRespawnPlayer s entity).position.x
    ∧ (clampRespawnPlayer s entity).position.x ≤ s.world_width - w * s.sprite_scale / 2 := by
  unfold clampRespawnPlayer
  rw [hT]
  dsimp only
  split_ifs <;> constructor <;> simp only [vec2] at * <;> linarith

theorem stepPlayer_kind (s : Scene) (keys : KeyState) (mf : MathFns) (dt : ℚ)
    (pls : List Platform) (e : Entity) :
    (stepPlayer s keys mf dt pls e).1.kind = e.kind := by
  unfold stepPlayer
  dsimp only
  rw [clampRespawnPlayer_kind, resolve_pc_kind]
  dsimp only
  split_ifs <;> rfl

theorem stepPlayer_texture (s : Scene) (keys : KeyState) (mf : MathFns) (dt : ℚ)
    (pls : List Platform) (e : Entity) :
    (stepPlayer s keys mf dt pls e).1.texture = e.texture := by
  unfold stepPlayer
  dsimp only
  rw [clampRespawnPlayer_texture, resolve_pc_texture]
  dsimp only
  split_ifs <;> rfl

/-- The world clamp and respawn of the player arm keep the player's x
within [half_width, world_width - half_width] whenever the sprite fits the
world at all. -/
theorem stepPlayer_x_bound (s : Scene) (keys : KeyState) (mf : MathFns) (dt : ℚ)
    (pls : List Platform) (e : Entity)
    (h2w : e.texture.width * s.sprite_scale ≤ s.world_width) :
    e.texture.width * s.sprite_scale / 2 ≤ (stepPlayer s keys mf dt pls e).1.position.x
    ∧ (stepPlayer s keys mf dt pls e).1.position.x
        ≤ s.world_width - e.texture.width * s.sprite_scale / 2 := by
  unfold stepPlayer
  dsimp only
  exact clampRespawnPlayer_x_bound s _ e.texture.width
    (by rw [resolve_pc_texture]; dsimp only; split_ifs <;> rfl) h2w

theorem enemyHorizontal_kind (s : Scene) (mf : MathFns) (pp : Option Vec2) (e : Entity) :
    (enemyHorizontal s mf pp e).kind = e.kind := by
  unfold enemyHorizontal
  dsimp only
  cases pp <;> dsimp only <;> split_ifs <;> rfl

theorem enemyEdgeReverse_kind (s : Scene) (e : Entity) :
    (enemyEdgeReverse s e).kind = e.kind := by
  unfold enemyEdgeReverse
  dsimp only
  split_ifs <;> rfl

theorem enemyJump_kind (s : Scene) (pls : List Platform) (e : Entity) :
    (enemyJump s pls e).1.kind = e.kind := by
  unfold enemyJump
  split_ifs <;> rfl

theorem enemyShoot_proj_kind (s : Scene) (mf : MathFns) (pp : Option Vec2) (e : Entity)
    (p : Entity) (h : (enemyShoot s mf pp e).1 = some p) :
    p.kind = EntityKind.Projectile := by
  unfold enemyShoot at h
  dsimp only at h
  cases pp <;> dsimp only at h <;> split_ifs at h <;>
    first
      | exact Option.noConfusion h
      | exact Option.some.inj h ▸ rfl

theorem stepEnemy_kind (s : Scene) (mf : MathFns) (dt : ℚ) (pls : List Platform)
    (pp : Option Vec2) (e : Entity) :
    (stepEnemy s mf dt pls pp e).1.kind = e.kind := by
  unfold stepEnemy
  dsimp only
  rw [enemyJump_kind, enemyEdgeReverse_kind, resolve_pc_kind]
  split <;> rw [enemyHorizontal_kind]

theorem stepEnemy_proj_kind (s : Scene) (mf : MathFns) (dt : ℚ) (pls : List Platform)
    (pp : Option Vec2) (e : Entity) (p : Entity)
    (h : (stepEnemy s mf dt pls pp e).2.1 = some p) :
    p.kind = EntityKind.Projectile := by
  unfold stepEnemy at h
  dsimp only at h
  exact enemyShoot_proj_kind _ mf pp _ p h

theorem stepEntity_kind (s : Scene) (keys : KeyState) (mf : MathFns) (dt : ℚ)
    (pls : List Platform) (pp : Option Vec2) (e : Entity) :
    (stepEntity s keys mf dt pls pp e).1.kind = e.kind := by
  unfold stepEntity
  rcases hk : e.kind <;> dsimp only <;> rw [← hk]
  · exact stepPlayer_kind s keys mf dt pls e
  · exact stepEnemy_kind s mf dt pls pp e
  · unfold stepCollectible; split <;> rfl
  · rfl

theorem stepEntity_proj_kind (s : Scene) (keys : KeyState) (mf : MathFns) (dt : ℚ)
    (pls : List Platform) (pp : Option Vec2) (e : Entity) (p : Entity)
    (h : (stepEntity s keys mf dt pls pp e).2.1 = some p) :
    p.kind = EntityKind.Projectile := by
  unfold stepEntity at h
  rcases hk : e.kind <;> rw [hk] at h <;> dsimp only at h
  · exact Option.noConfusion h
  · exact stepEnemy_proj_kind s mf dt pls pp e p h
  · exact Option.noConfusion h
  · exact Option.noConfusion h

/-- Every entity in the loop output arises from stepping an input entity. -/
theorem updateEntities_mem (s : Scene) (keys : KeyState) (mf : MathFns) (dt : ℚ)
    (pls : List Platform) (pp : Option Vec2) :
    ∀ (es : List Entity) (e' : Entity),
      e' ∈ (updateEntities s keys mf dt pls pp es).entities →
      ∃ e ∈ es, e' = (stepEntity s keys mf dt pls pp e).1
  | [], e', h => absurd h (by simp [updateEntities])
  | e :: rest, e', h => by
    unfold updateEntities at h
    dsimp only at h
    rcases List.mem_cons.mp h with h | h
    · exact ⟨e, List.mem_cons_self e rest, h⟩
    · obtain ⟨e0, hm, he0⟩ := updateEntities_mem s keys mf dt pls pp rest e' h
      exact ⟨e0, List.mem_cons_of_mem e hm, he0⟩

/-- Every projectile spawned by the loop has Projectile kind. -/
theorem updateEntities_proj_kind (s : Scene) (keys : KeyState) (mf : MathFns) (dt : ℚ)
    (pls : List Platform) (pp : Option Vec2) :
    ∀ (es : List Entity) (p : Entity),
      p ∈ (updateEntities s keys mf dt pls pp es).new_projectiles →
      p.kind = EntityKind.Projectile
  | [], p, h => absurd h (by simp [updateEntities])
  | e :: rest, p, h => by
    unfold updateEntities at h
    dsimp only at h
    rcases List.mem_append.mp h with h | h
    · rcases hopt : (stepEntity s keys mf dt pls pp e).2.1 with _ | q
      · rw [hopt] at h; exact absurd h (by simp)
      · rw [hopt] at h
        simp only [Option.toList_some, List.mem_singleton] at h
        subst h
        exact stepEntity_proj_kind s keys mf dt pls pp e p hopt
    · exact updateEntities_proj_kind s keys mf dt pls pp rest p h

/-! Helper lemmas: which phases leave the entity list (or its membership)
and the geometry configuration unchanged. -/

theorem tickParticles_entities (dt : ℚ) (s : Scene) :
    (tickParticles dt s).entities = s.entities := by
  unfold tickParticles; split <;> rfl

theorem tickEnemyTimers_entities (dt : ℚ) (s : Scene) :
    (tickEnemyTimers dt s).entities = s.entities := by
  unfold tickEnemyTimers; dsimp only; split_ifs <;> rfl

theorem movePlatforms_entities (mf : MathFns) (s : Scene) :
    (movePlatforms mf s).entities = s.entities := by
  unfold movePlatforms; split <;> rfl

theorem tickHitTimer_entities (dt : ℚ) (s : Scene) :
    (tickHitTimer dt s).entities = s.entities := by
  unfold tickHitTimer; split <;> rfl

theorem preTick_entities (dt : ℚ) (mf : MathFns) (s : Scene) :
    (preTick dt mf s).entities = s.entities := by
  unfold preTick
  rw [tickHitTimer_entities, movePlatforms_entities, tickEnemyTimers_entities,
    tickParticles_entities]

theorem tickParticles_sprite_scale (dt : ℚ) (s : Scene) :
    (tickParticles dt s).sprite_scale = s.sprite_scale := by
  unfold tickParticles; split <;> rfl

theorem tickEnemyTimers_sprite_scale (dt : ℚ) (s : Scene) :
    (tickEnemyTimers dt s).sprite_scale = s.sprite_scale := by
  unfold tickEnemyTimers; dsimp only; split_ifs <;> rfl

theorem movePlatforms_sprite_scale (mf : MathFns) (s : Scene) :
    (movePlatforms mf s).sprite_scale = s.sprite_scale := by
  unfold movePlatforms; split <;> rfl

theorem tickHitTimer_sprite_scale (dt : ℚ) (s : Scene) :
    (tickHitTimer dt s).sprite_scale = s.sprite_scale := by
  unfold tickHitTimer; split <;> rfl

theorem preTick_sprite_scale (dt : ℚ) (mf : MathFns) (s : Scene) :
    (preTick dt mf s).sprite_scale = s.sprite_scale := by
  unfold preTick
  rw [tickHitTimer_sprite_scale, movePlatforms_sprite_scale, tickEnemyTimers_sprite_scale,
    tickParticles_sprite_scale]

theorem tickParticles_world_width (dt : ℚ) (s : Scene) :
    (tickParticles dt s).world_width = s.world_width := by
  unfold tickParticles; split <;> rfl

theorem tickEnemyTimers_world_width (dt : ℚ) (s : Scene) :
    (tickEnemyTimers dt s).world_width = s.world_width := by
  unfold tickEnemyTimers; dsimp only; split_ifs <;> rfl

theorem movePlatforms_world_width (mf : MathFns) (s : Scene) :
    (movePlatforms mf s).world_width = s.world_width := by
  unfold movePlatforms; split <;> rfl

theorem tickHitTimer_world_width (dt : ℚ) (s : Scene) :
    (tickHitTimer dt s).world_width = s.world_width := by
  unfold tickHitTimer; split <;> rfl

theorem preTick_world_width (dt : ℚ) (mf : MathFns) (s : Scene) :
    (preTick dt mf s).world_width = s.world_width := by
  unfold preTick
  rw [tickHitTimer_world_width, movePlatforms_world_width, tickEnemyTimers_world_width,
    tickParticles_world_width]

theorem applyLoopOut_entities (out : LoopOut) (s : Scene) :
    (applyLoopOut out s).entities = out.entities ++ out.new_projectiles := by
  unfold applyLoopOut; dsimp only; split_ifs <;> rfl

theorem cullProjectiles_entities_sub (s : Scene) (e : Entity)
    (h : e ∈ (cullProjectiles s).entities) : e ∈ s.entities := by
  unfold cullProjectiles at h
  dsimp only at h
  exact (List.mem_filter.mp h).1

theorem damageApply_entities (mf : MathFns) (rect : Rect) (he hp : Bool) (s : Scene) :
    (damageApply mf rect he hp s).1.entities = s.entities := by
  unfold damageApply; dsimp only; split_ifs <;> rfl

theorem damagePhase_entities_sub (mf : MathFns) (pr : Option Rect) (s : Scene) (e : Entity)
    (h : e ∈ (damagePhase mf pr s).1.entities) : e ∈ s.entities := by
  unfold damagePhase at h
  cases pr
  · exact h
  · dsimp only at h
    split_ifs at h <;> (try dsimp only at h) <;>
      first
        | exact h
        | (unfold removeHitProjectiles at h
           dsimp only at h
           rw [damageApply_entities] at h
           exact (List.mem_filter.mp h).1)

theorem collectPhase_entities_sub (mf : MathFns) (pr : Option Rect) (s : Scene) (e : Entity)
    (h : e ∈ (collectPhase mf pr s).1.entities) : e ∈ s.entities := by
  unfold collectPhase at h
  cases pr
  · exact h
  · dsimp only at h
    split_ifs at h <;> exact (List.mem_filter.mp h).1

theorem addNewParticles_entities (ps : List Particle) (s : Scene) :
    (addNewParticles ps s).entities = s.entities := by
  unfold addNewParticles; split <;> rfl

/-- Every entity of the post-tick scene arises from stepping a pre-tick
entity or is a fresh projectile. -/
theorem update_entities_mem (s : Scene) (dt : ℚ) (keys : KeyState) (mf : MathFns)
    (e' : Entity) (h : e' ∈ (s.update dt keys mf).entities) :
    (∃ e ∈ s.entities,
        e' = (stepEntity (preTick dt mf s) keys mf dt (preTick dt mf s).platforms
          ((s.entities.find? (fun e => e.kind = EntityKind.Player)).map (·.position)) e).1)
    ∨ e'.kind = EntityKind.Projectile := by
  unfold Scene.update at h
  dsimp only at h
  rw [addNewParticles_entities] at h
  have h2 := collectPhase_entities_sub _ _ _ _ h
  have h3 := damagePhase_entities_sub _ _ _ _ h2
  have h4 := cullProjectiles_entities_sub _ _ h3
  rw [applyLoopOut_entities] at h4
  unfold loopOutOf at h4
  rcases List.mem_append.mp h4 with h5 | h5
  · left
    obtain ⟨e, hm, he⟩ := updateEntities_mem _ keys mf dt _ _ _ e' h5
    rw [preTick_entities] at hm
    refine ⟨e, hm, ?_⟩
    rw [he, preTick_entities]
  · right
    exact updateEntities_proj_kind _ keys mf dt _ _ _ e' h5

/-- C7 (amended): world-bounds clamping applies to the player, not to every
entity: after each tick every Player entity's horizontal position lies in
[half_width, world_width - half_width] of its bounding box (provided the
player sprite fits the world), while non-player entities are not clamped
(enemies only reverse velocity at the edges) and the fall respawn likewise
applies only to the player. -/
theorem update_player_clamped (s : Scene) (dt : ℚ) (keys : KeyState) (mf : MathFns)
    (hw : ∀ e ∈ s.entities, e.kind = EntityKind.Player →
      e.texture.width * s.sprite_scale ≤ s.world_width) :
    ∀ e' ∈ (s.update dt keys mf).entities, e'.kind = EntityKind.Player →
      e'.texture.width * s.sprite_scale / 2 ≤ e'.position.x
      ∧ e'.position.x ≤ s.world_width - e'.texture.width * s.sprite_scale / 2 := by
  intro e' hmem hk
  rcases update_entities_mem s dt keys mf e' hmem with ⟨e, hm, he⟩ | hproj
  · have hek : e.kind = EntityKind.Player := by
      rw [he] at hk
      rw [← stepEntity_kind (preTick dt mf s) keys mf dt (preTick dt mf s).platforms _ e]
      exact hk
    have hstep : e' = (stepPlayer (preTick dt mf s) keys mf dt (preTick dt mf s).platforms e).1 := by
      rw [he]
      unfold stepEntity
      rw [hek]
    have h2w : e.texture.width * (preTick dt mf s).sprite_scale ≤ (preTick dt mf s).world_width := by
      rw [preTick_sprite_scale, preTick_world_width]
      exact hw e hm hek
    have hb := stepPlayer_x_bound (preTick dt mf s) keys mf dt (preTick dt mf s).platforms e h2w
    have ht := stepPlayer_texture (preTick dt mf s) keys mf dt (preTick dt mf s).platforms e
    rw [preTick_sprite_scale, preTick_world_width] at hb
    rw [hstep, ht]
    exact hb
  · rw [hk] at hproj
    exact absurd hproj (by simp)

/-- C7 counterexample: a non-player entity (an enemy resting at x = -100 in
an 800-wide world with half-width 16) stays at x = -100 after a tick, far
outside the claimed clamp interval [half_width, world_width - half_width]. -/
theorem update_enemy_not_clamped :
    ((c7Scene.update 0 keysNone mfZero).entities.head?).map (fun e => e.kind)
        = some EntityKind.Enemy
    ∧ ((c7Scene.update 0 keysNone mfZero).entities.head?).map (fun e => e.position.x)
        = some (-100)
    ∧ ¬((32 : ℚ) * c7Scene.sprite_scale / 2 ≤ -100) := by
  with_unfolding_all decide

/-- C7 witness: the amended player clamp at a concrete state. -/
theorem update_player_clamped_witness :
    (∀ e ∈ c2Scene.entities, e.kind = EntityKind.Player →
      e.texture.width * c2Scene.sprite_scale ≤ c2Scene.world_width)
    ∧ (∀ e' ∈ (c2Scene.update 0 keysNone mfZero).entities,
        e'.kind = EntityKind.Player →
        e'.texture.width * c2Scene.sprite_scale / 2 ≤ e'.position.x
        ∧ e'.position.x ≤ c2Scene.world_width - e'.texture.width * c2Scene.sprite_scale / 2) :=
  ⟨by with_unfolding_all decide,
    update_player_clamped c2Scene 0 keysNone mfZero (by with_unfolding_all decide)⟩

/-! Helper lemmas for the resting-contact claim. -/

theorem Vec2.add_def (a b : Vec2) : a + b = ⟨a.x + b.x, a.y + b.y⟩ := rfl

theorem Vec2.smul_def (v : Vec2) (c : ℚ) : v.smul c = ⟨v.x * c, v.y * c⟩ := rfl

theorem tickParticles_gravity (dt : ℚ) (s : Scene) :
    (tickParticles dt s).gravity = s.gravity := by
  unfold tickParticles; split <;> rfl

theorem tickEnemyTimers_gravity (dt : ℚ) (s : Scene) :
    (tickEnemyTimers dt s).gravity = s.gravity := by
  unfold tickEnemyTimers; dsimp only; split_ifs <;> rfl

theorem movePlatforms_gravity (mf : MathFns) (s : Scene) :
    (movePlatforms mf s).gravity = s.gravity := by
  unfold movePlatforms; split <;> rfl

theorem tickHitTimer_gravity (dt : ℚ) (s : Scene) :
    (tickHitTimer dt s).gravity = s.gravity := by
  unfold tickHitTimer; split <;> rfl

theorem preTick_gravity (dt : ℚ) (mf : MathFns) (s : Scene) :
    (preTick dt mf s).gravity = s.gravity := by
  unfold preTick
  rw [tickHitTimer_gravity, movePlatforms_gravity, tickEnemyTimers_gravity,
    tickParticles_gravity]

theorem tickParticles_world_height (dt : ℚ) (s : Scene) :
    (tickParticles dt s).world_height = s.world_height := by
  unfold tickParticles; split <;> rfl

theorem tickEnemyTimers_world_height (dt : ℚ) (s : Scene) :
    (tickEnemyTimers dt s).world_height = s.world_height := by
  unfold tickEnemyTimers; dsimp only; split_ifs <;> rfl

theorem movePlatforms_world_height (mf : MathFns) (s : Scene) :
    (movePlatforms mf s).world_height = s.world_height := by
  unfold movePlatforms; split <;> rfl

theorem tickHitTimer_world_height (dt : ℚ) (s : Scene) :
    (tickHitTimer dt s).world_height = s.world_height := by
  unfold tickHitTimer; split <;> rfl

theorem preTick_world_height (dt : ℚ) (mf : MathFns) (s : Scene) :
    (preTick dt mf s).world_height = s.world_height := by
  unfold preTick
  rw [tickHitTimer_world_height, movePlatforms_world_height, tickEnemyTimers_world_height,
    tickParticles_world_height]

theorem tickParticles_fall_offset (dt : ℚ) (s : Scene) :
    (tickParticles dt s).fall_respawn_offset = s.fall_respawn_offset := by
  unfold tickParticles; split <;> rfl

theorem tickEnemyTimers_fall_offset (dt : ℚ) (s : Scene) :
    (tickEnemyTimers dt s).fall_respawn_offset = s.fall_respawn_offset := by
  unfold tickEnemyTimers; dsimp only; split_ifs <;> rfl

theorem movePlatforms_fall_offset (mf : MathFns) (s : Scene) :
    (movePlatforms mf s).fall_respawn_offset = s.fall_respawn_offset := by
  unfold movePlatforms; split <;> rfl

theorem tickHitTimer_fall_offset (dt : ℚ) (s : Scene) :
    (tickHitTimer dt s).fall_respawn_offset = s.fall_respawn_offset := by
  unfold tickHitTimer; split <;> rfl

theorem preTick_fall_offset (dt : ℚ) (mf : MathFns) (s : Scene) :
    (preTick dt mf s).fall_respawn_offset = s.fall_respawn_offset := by
  unfold preTick
  rw [tickHitTimer_fall_offset, movePlatforms_fall_offset, tickEnemyTimers_fall_offset,
    tickParticles_fall_offset]

theorem tickParticles_platforms (dt : ℚ) (s : Scene) :
    (tickParticles dt s).platforms = s.platforms := by
  unfold tickParticles; split <;> rfl

theorem tickEnemyTimers_platforms (dt : ℚ) (s : Scene) :
    (tickEnemyTimers dt s).platforms = s.platforms := by
  unfold tickEnemyTimers; dsimp only; split_ifs <;> rfl

theorem tickHitTimer_platforms (dt : ℚ) (s : Scene) :
    (tickHitTimer dt s).platforms = s.platforms := by
  unfold tickHitTimer; split <;> rfl

theorem tickParticles_mpe (dt : ℚ) (s : Scene) :
    (tickParticles dt s).moving_platform_enabled = s.moving_platform_enabled := by
  unfold tickParticles; split <;> rfl

theorem tickEnemyTimers_mpe (dt : ℚ) (s : Scene) :
    (tickEnemyTimers dt s).moving_platform_enabled = s.moving_platform_enabled := by
  unfold tickEnemyTimers; dsimp only; split_ifs <;> rfl

theorem movePlatforms_disabled (mf : MathFns) (s : Scene)
    (h : s.moving_platform_enabled = false) : movePlatforms mf s = s := by
  unfold movePlatforms
  rw [h]
  rfl

/-- With moving platforms disabled, the pre-tick leaves the platform list
unchanged. -/
theorem preTick_platforms_static (dt : ℚ) (mf : MathFns) (s : Scene)
    (h : s.moving_platform_enabled = false) :
    (preTick dt mf s).platforms = s.platforms := by
  unfold preTick
  rw [tickHitTimer_platforms, movePlatforms_disabled, tickEnemyTimers_platforms,
    tickParticles_platforms]
  rw [tickEnemyTimers_mpe, tickParticles_mpe]
  exact h

theorem cullProjectiles_entities_no_projectile (s : Scene)
    (h : ∀ e ∈ s.entities, e.kind ≠ EntityKind.Projectile) :
    (cullProjectiles s).entities = s.entities := by
  unfold cullProjectiles
  dsimp only
  rw [List.filter_eq_self.mpr]
  intro e he
  rw [if_neg (h e he)]

theorem damagePhase_entities_no_projectile (mf : MathFns) (pr : Option Rect) (s : Scene)
    (h : ∀ e ∈ s.entities, e.kind ≠ EntityKind.Projectile) :
    (damagePhase mf pr s).1.entities = s.entities := by
  unfold damagePhase
  cases pr
  · rfl
  · dsimp only
    split_ifs <;> (try rfl) <;>
      (unfold removeHitProjectiles
       dsimp only
       rw [damageApply_entities, List.filter_eq_self.mpr]
       intro e he
       rw [if_neg (h e he)])

theorem collectPhase_entities_no_collectible (mf : MathFns) (pr : Option Rect) (s : Scene)
    (h : ∀ e ∈ s.entities, e.kind ≠ EntityKind.Collectible) :
    (collectPhase mf pr s).1.entities = s.entities := by
  unfold collectPhase
  cases pr
  · rfl
  · dsimp only
    split_ifs <;> dsimp only <;>
      (rw [List.filter_eq_self.mpr]
       intro e he
       simp only [Bool.not_eq_true', Bool.and_eq_false_iff]
       left
       simp [h e he])

/-- One tick of a scene whose only entity is the player reduces, on the
entity list, to the player step. -/
theorem update_single_player (s : Scene) (dt : ℚ) (keys : KeyState) (mf : MathFns)
    (e : Entity) (hents : s.entities = [e]) (hkind : e.kind = EntityKind.Player) :
    (s.update dt keys mf).entities
      = [(stepPlayer (preTick dt mf s) keys mf dt (preTick dt mf s).platforms e).1] := by
  have h1 : (preTick dt mf s).entities = [e] := by rw [preTick_entities, hents]
  have hloop : loopOutOf (preTick dt mf s) keys mf dt
      = ⟨[(stepPlayer (preTick dt mf s) keys mf dt (preTick dt mf s).platforms e).1],
          [], false, false,
          (stepPlayer (preTick dt mf s) keys mf dt (preTick dt mf s).platforms e).2⟩ := by
    unfold loopOutOf
    rw [h1]
    unfold updateEntities updateEntities
    dsimp only
    unfold stepEntity
    rw [hkind]
    dsimp only
    simp
  have hkind' : (stepPlayer (preTick dt mf s) keys mf dt (preTick dt mf s).platforms e).1.kind
      = EntityKind.Player := by
    rw [stepPlayer_kind]
    exact hkind
  unfold Scene.update
  dsimp only
  rw [addNewParticles_entities, hloop]
  have hentities2 : (cullProjectiles (applyLoopOut
      ⟨[(stepPlayer (preTick dt mf s) keys mf dt (preTick dt mf s).platforms e).1],
        [], false, false,
        (stepPlayer (preTick dt mf s) keys mf dt (preTick dt mf s).platforms e).2⟩
      (preTick dt mf s))).entities
      = [(stepPlayer (preTick dt mf s) keys mf dt (preTick dt mf s).platforms e).1] := by
    rw [cullProjectiles_entities_no_projectile]
    · rw [applyLoopOut_entities]
      dsimp only
      rw [List.append_nil]
    · intro x hx
      rw [applyLoopOut_entities] at hx
      dsimp only at hx
      rw [List.append_nil] at hx
      rw [List.mem_singleton.mp hx, hkind']
      simp
  rw [collectPhase_entities_no_collectible, damagePhase_entities_no_projectile]
  · exact hentities2
  · intro x hx
    rw [hentities2] at hx
    rw [List.mem_singleton.mp hx, hkind']
    simp
  · intro x hx
    rw [damagePhase_entities_no_projectile] at hx
    · rw [hentities2] at hx
      rw [List.mem_singleton.mp hx, hkind']
      simp
    · intro y hy
      rw [hentities2] at hy
      rw [List.mem_singleton.mp hy, hkind']
      simp

/-- When none of the world-bound conditions fire, the clamp-and-respawn tail
of the player arm is the identity. -/
theorem clampRespawnPlayer_id (s : Scene) (entity : Entity)
    (h1 : ¬ (entity.position.x - entity.texture.width * s.sprite_scale / 2 < 0))
    (h2 : ¬ (entity.position.x + entity.texture.width * s.sprite_scale / 2 > s.world_width))
    (h3 : ¬ (entity.position.y - entity.texture.height * s.sprite_scale / 2
      > s.world_height + s.fall_respawn_offset)) :
    clampRespawnPlayer s entity = entity := by
  unfold clampRespawnPlayer
  dsimp only
  rw [if_neg h1, if_neg h2, if_neg h3]

/-- Core of the resting-contact argument, at the level of the player step:
with idle input, zero velocity, and the entity bottom exactly on the platform
top, gravity integration followed by platform resolution and world clamping
returns the entity to the same x and y with zero vertical velocity. -/
theorem stepPlayer_resting (σ : Scene) (keys : KeyState) (mf : MathFns) (dt : ℚ)
    (p : Platform) (e : Entity)
    (hkind : e.kind = EntityKind.Player)
    (hvel : e.velocity = Vec2.zero)
    (hkeys : ∀ k, keys.down k = false)
    (hkeysp : ∀ k, keys.pressed k = false)
    (hrest : e.position.y + e.texture.height * σ.sprite_scale / 2
      = p.position.y - p.texture.height * σ.sprite_scale / 2)
    (hox1 : e.position.x - e.texture.width * σ.sprite_scale / 2
      ≤ p.position.x + p.texture.width * σ.sprite_scale / 2)
    (hox2 : e.position.x + e.texture.width * σ.sprite_scale / 2
      ≥ p.position.x - p.texture.width * σ.sprite_scale / 2)
    (hg : 0 ≤ σ.gravity) (hdt : 0 ≤ dt)
    (hpen : σ.gravity * dt * dt
      ≤ e.texture.height * σ.sprite_scale + p.texture.height * σ.sprite_scale)
    (hcx1 : e.texture.width * σ.sprite_scale / 2 ≤ e.position.x)
    (hcx2 : e.position.x + e.texture.width * σ.sprite_scale / 2 ≤ σ.world_width)
    (hfall : e.position.y - e.texture.height * σ.sprite_scale / 2
      ≤ σ.world_height + σ.fall_respawn_offset) :
    (stepPlayer σ keys mf dt [p] e).1.position.y = e.position.y
    ∧ (stepPlayer σ keys mf dt [p] e).1.position.x = e.position.x
    ∧ (stepPlayer σ keys mf dt [p] e).1.velocity.y = 0 := by
  have hld : (keys.down σ.input.move_left_primary
      || (match σ.input.move_left_alt with
          | some k => keys.down k
          | none => false)) = false := by
    cases σ.input.move_left_alt <;> simp [hkeys]
  have hrd : (keys.down σ.input.move_right_primary
      || (match σ.input.move_right_alt with
          | some k => keys.down k
          | none => false)) = false := by
    cases σ.input.move_right_alt <;> simp [hkeys]
  have hjp : (keys.pressed σ.input.jump_primary
      || (match σ.input.jump_alt with
          | some k => keys.pressed k
          | none => false)) = false := by
    cases σ.input.jump_alt <;> simp [hkeysp]
  have hE : stepPlayer σ keys mf dt [p] e
      = (clampRespawnPlayer σ (resolve_platform_collisions
          { e with velocity := ⟨0, σ.gravity * dt⟩,
                   position := ⟨e.position.x, e.position.y + σ.gravity * dt * dt⟩ }
          [p] σ.sprite_scale), []) := by
    unfold stepPlayer
    dsimp only
    rw [hld, hrd, hjp]
    simp only [Bool.and_false, Bool.false_eq_true, if_false, hvel, Vec2.zero,
      Vec2.add_def, Vec2.smul_def]
    norm_num
  rw [hE]
  dsimp only
  by_cases hvy : σ.gravity * dt ≤ 0
  · have h0 : σ.gravity * dt = 0 := le_antisymm hvy (mul_nonneg hg hdt)
    rw [resolve_platform_collisions, if_pos (by dsimp only; exact hvy)]
    rw [clampRespawnPlayer_id]
    · refine ⟨?_, rfl, ?_⟩
      · dsimp only
        rw [h0]
        ring
      · dsimp only
        exact h0
    · dsimp only
      linarith
    · dsimp only
      linarith
    · dsimp only
      rw [h0]
      push_neg
      linarith
  · push_neg at hvy
    have hgd2 : 0 ≤ σ.gravity * dt * dt := mul_nonneg (le_of_lt hvy) hdt
    rw [resolve_platform_collisions, if_neg (by dsimp only; push_neg; exact hvy)]
    dsimp only [entity_rect, List.foldl]
    rw [hkind]
    dsimp only
    unfold resolveStep platform_rect
    dsimp only
    rw [if_pos]
    · rw [clampRespawnPlayer_id]
      · refine ⟨?_, rfl, rfl⟩
        dsimp only
        linarith
      · dsimp only
        linarith
      · dsimp only
        linarith
      · dsimp only
        push_neg
        linarith
    · unfold Rect.overlaps
      dsimp only
      rw [decide_eq_true_eq]
      refine ⟨by linarith, by linarith, by linarith, by linarith⟩

/-- C8: a player entity resting exactly on a platform's top edge with zero
velocity and no input keeps its position and zero vertical velocity across a
full tick of Scene::update: gravity integration is undone by the landing
resolution, which re-snaps the bottom edge to the platform top (the stated
example gravity = 900, dt = 1/60 satisfies the penetration bound).  Stated
for a scene whose entity list is exactly the resting player, with moving
platforms disabled, the player inside the horizontal world bounds and above
the fall-respawn line, and gravity, dt and the snap depth nonnegative. -/
theorem update_resting_on_platform (s : Scene) (dt : ℚ) (keys : KeyState) (mf : MathFns)
    (e : Entity) (p : Platform)
    (hents : s.entities = [e]) (hplats : s.platforms = [p])
    (hmpe : s.moving_platform_enabled = false)
    (hkind : e.kind = EntityKind.Player)
    (hvel : e.velocity = Vec2.zero)
    (hkeys : ∀ k, keys.down k = false)
    (hkeysp : ∀ k, keys.pressed k = false)
    (hrest : e.position.y + e.texture.height * s.sprite_scale / 2
      = p.position.y - p.texture.height * s.sprite_scale / 2)
    (hox1 : e.position.x - e.texture.width * s.sprite_scale / 2
      ≤ p.position.x + p.texture.width * s.sprite_scale / 2)
    (hox2 : e.position.x + e.texture.width * s.sprite_scale / 2
      ≥ p.position.x - p.texture.width * s.sprite_scale / 2)
    (hg : 0 ≤ s.gravity) (hdt : 0 ≤ dt)
    (hpen : s.gravity * dt * dt
      ≤ e.texture.height * s.sprite_scale + p.texture.height * s.sprite_scale)
    (hcx1 : e.texture.width * s.sprite_scale / 2 ≤ e.position.x)
    (hcx2 : e.position.x + e.texture.width * s.sprite_scale / 2 ≤ s.world_width)
    (hfall : e.position.y - e.texture.height * s.sprite_scale / 2
      ≤ s.world_height + s.fall_respawn_offset) :
    ∃ e2, (s.update dt keys mf).entities = [e2]
      ∧ e2.position.y = e.position.y
      ∧ e2.position.x = e.position.x
      ∧ e2.velocity.y = 0 := by
  have hplat2 : (preTick dt mf s).platforms = [p] := by
    rw [preTick_platforms_static dt mf s hmpe, hplats]
  have hmain := stepPlayer_resting (preTick dt mf s) keys mf dt p e hkind hvel hkeys hkeysp
    (by rw [preTick_sprite_scale]; exact hrest)
    (by rw [preTick_sprite_scale]; exact hox1)
    (by rw [preTick_sprite_scale]; exact hox2)
    (by rw [preTick_gravity]; exact hg) hdt
    (by rw [preTick_gravity, preTick_sprite_scale]; exact hpen)
    (by rw [preTick_sprite_scale]; exact hcx1)
    (by rw [preTick_sprite_scale, preTick_world_width]; exact hcx2)
    (by rw [preTick_sprite_scale, preTick_world_height, preTick_fall_offset]; exact hfall)
  refine ⟨(stepPlayer (preTick dt mf s) keys mf dt (preTick dt mf s).platforms e).1,
    update_single_player s dt keys mf e hents hkind, ?_, ?_, ?_⟩
  · rw [hplat2]
    exact hmain.1
  · rw [hplat2]
    exact hmain.2.1
  · rw [hplat2]
    exact hmain.2.2

/-- A successful sample of gen_range(lo..=hi) lies in [lo, hi]. -/
theorem gen_range_nat_bounds (lo hi : Nat) (g : Rng) (v : Nat) (g2 : Rng)
    (h : gen_range_nat lo hi g = some (v, g2)) : lo ≤ v ∧ v ≤ hi := by
  unfold gen_range_nat at h
  split_ifs at h with hlt
  cases hp : g.next with
  | mk w gw =>
    rw [hp] at h
    dsimp only at h
    have hmod : w % (hi - lo + 1) < hi - lo + 1 := Nat.mod_lt _ (by omega)
    have hv : lo + w % (hi - lo + 1) = v := congrArg Prod.fst (Option.some.inj h)
    omega

/-- The budget invariant of the cluster loop: a successful run draws cluster
sizes that sum to at most the starting budget, and each drawn size lies in
[min(cluster_min, remaining), min(cluster_max, remaining)] for the budget
remaining before it. -/
theorem cluster_loop_budget (sprites : List SpriteAsset) (rules : GameRules)
    (pidx : List Nat) (cmin cmax : Nat) (hcmin : 1 ≤ cmin) (hcc : cmin ≤ cmax)
    (remaining : Nat) : ∀ scene g out,
    cluster_loop sprites rules pidx cmin cmax remaining scene g = some out →
      out.1.sum ≤ remaining ∧ clusterBounds cmin cmax remaining out.1 = true := by
  induction remaining using Nat.strong_induction_on with
  | _ remaining ih =>
    intro scene g out h
    rw [cluster_loop] at h
    split at h
    · have hout := Option.some.inj h
      subst hout
      simp [clusterBounds]
    · rename_i hr
      cases hg1 : gen_range_nat cmin cmax g with
      | none =>
        rw [hg1] at h
        exact absurd h (by simp)
      | some dg =>
        obtain ⟨d, g1⟩ := dg
        rw [hg1] at h
        dsimp only at h
        have hd := gen_range_nat_bounds cmin cmax g d g1 hg1
        have hrem1 : 1 ≤ remaining := Nat.one_le_iff_ne_zero.mpr hr
        have hcsle : max (min d remaining) 1 ≤ remaining :=
          max_le (min_le_right _ _) hrem1
        have hcslo : min cmin remaining ≤ max (min d remaining) 1 :=
          le_trans (min_le_min hd.1 (le_refl remaining)) (le_max_left _ _)
        have hcshi : max (min d remaining) 1 ≤ min cmax remaining :=
          max_le (min_le_min hd.2 (le_refl remaining))
            (le_min (le_trans hcmin hcc) hrem1)
        have hcs1 : 1 ≤ max (min d remaining) 1 := le_max_right _ _
        split at h
        · have hout := Option.some.inj h
          subst hout
          refine ⟨by simpa using hcsle, ?_⟩
          simp [clusterBounds, hcslo, hcshi]
        · split at h
          · exact absurd h (by simp)
          · rename_i scene2 g3 hplaced
            split at h
            · exact absurd h (by simp)
            · rename_i rest scene3 g4 hrec
              have hout := Option.some.inj h
              subst hout
              have hsub : remaining - max (min d remaining) 1 < remaining :=
                Nat.sub_lt (by omega) (by omega)
              have hih := ih _ hsub scene2 g3 (rest, scene3, g4) hrec
              refine ⟨?_, ?_⟩
              · have h1 := hih.1
                dsimp only at h1 ⊢
                rw [List.sum_cons]
                omega
              · have h2 := hih.2
                dsimp only at h2 ⊢
                simp [clusterBounds, hcslo, hcshi, h2]

/-- C4 (amended): in spawn_collectibles, whenever the loop runs (the call
returns a trace), the drawn cluster sizes sum to at most the initially
computed total, and every drawn size lies in [min(cluster_min, remaining),
min(cluster_max, remaining)] for the budget remaining before it, with
cluster_min = max(collectible_cluster_size_min, 1) and cluster_max floored
at cluster_min as the source computes them.  The lower bound is
min(cluster_min, remaining), not cluster_min: the final cluster is truncated
to the remaining budget. -/
theorem spawn_collectibles_budget (scene : Scene) (assets : Assets) (rules : GameRules)
    (level : Nat) (g : Rng) (multiplier : ℚ) (tr : CollectTrace)
    (h : (spawn_collectibles_traced scene assets rules level g multiplier).map
      (fun r => r.1) = some (some tr)) :
    tr.clusters.sum ≤ tr.total
    ∧ clusterBounds (max rules.collectible_cluster_size_min 1)
        (max rules.collectible_cluster_size_max (max rules.collectible_cluster_size_min 1))
        tr.total tr.clusters = true := by
  unfold spawn_collectibles_traced at h
  dsimp only at h
  split at h
  · simp at h
  · split at h
    · simp at h
    · rename_i bt g2 hgen
      split at h
      · simp at h
      · rename_i clusters scene2 g3 hloop
        dsimp only [Option.map] at h
        have htr := Option.some.inj (Option.some.inj h)
        subst htr
        have hb := cluster_loop_budget (assets.sprites_of_kind SpriteKind.Collectible)
          rules _ (max rules.collectible_cluster_size_min 1)
          (max rules.collectible_cluster_size_max (max rules.collectible_cluster_size_min 1))
          (le_max_right _ _) (le_max_right _ _) _ _ _ _ hloop
        exact hb

/-- Counterexample dual for C4's literal lower bound: with
cluster_min = cluster_max = 5 and a drawn budget of 7, the loop draws the
clusters [5, 2]; the final cluster size 2 is below cluster_min = 5. -/
theorem spawn_collectibles_min_not_lower_bound :
    ((spawn_collectibles_traced c4Scene exAssets c4Rules 1 ⟨7⟩ 1).map (fun r => r.1)
      = some (some ⟨7, 7, [5, 2]⟩))
    ∧ max c4Rules.collectible_cluster_size_min 1 = 5
    ∧ ¬ (max c4Rules.collectible_cluster_size_min 1 ≤ 2) :=
  ⟨by with_unfolding_all decide, by decide, by decide⟩

/-- Witness for C4 at the counterexample instance: budget 7, clusters
[5, 2], bounds checked with the truncated lower bound. -/
theorem spawn_collectibles_budget_witness :
    (CollectTrace.mk 7 7 [5, 2]).clusters.sum ≤ (CollectTrace.mk 7 7 [5, 2]).total
    ∧ clusterBounds (max c4Rules.collectible_cluster_size_min 1)
        (max c4Rules.collectible_cluster_size_max (max c4Rules.collectible_cluster_size_min 1))
        (CollectTrace.mk 7 7 [5, 2]).total (CollectTrace.mk 7 7 [5, 2]).clusters = true :=
  spawn_collectibles_budget c4Scene exAssets c4Rules 1 ⟨7⟩ 1 ⟨7, 7, [5, 2]⟩
    (by with_unfolding_all decide)

/-- Appending one entity adds one to the count of its kind and leaves other
kind counts unchanged. -/
theorem countKind_append_one (k : EntityKind) (s : Scene) (e : Entity) :
    countKind k { s with entities := s.entities ++ [e] }
      = countKind k s + (if e.kind = k then 1 else 0) := by
  unfold countKind
  dsimp only
  rw [List.filter_append, List.length_append]
  congr 1
  by_cases h : e.kind = k <;> simp [h]

/-- choose_random on a nonempty catalog always returns a chosen sprite. -/
theorem choose_random_ne (items : List SpriteAsset) (g : Rng) (h : items ≠ []) :
    ∃ s g2, choose_random items g = (some s, g2) := by
  unfold choose_random
  rw [if_neg (by simp [List.isEmpty_iff, h])]
  cases hp : g.next with
  | mk w gw =>
    cases hq : items.get? (w % items.length) with
    | none =>
      exfalso
      rw [List.get?_eq_none] at hq
      have : w % items.length < items.length := Nat.mod_lt _ (List.length_pos.mpr h)
      omega
    | some s =>
      exact ⟨s, gw, by dsimp only; rw [hq]⟩

/-- Scene::new starts with an empty entity list. -/
theorem scene_new_entities
    (ms js gr es egs ss : ℚ) (psh pmh ecd : Nat) (hid : ℚ) (hfe : Bool)
    (fro jsv hsv psv : ℚ) (inp : InputConfig) (ww wh : ℚ) (mpe mpv : Bool)
    (mps mpa : ℚ) (cbe : Bool) (cba cbs : ℚ) (eje : Bool) (eji ejs : ℚ)
    (ese : Bool) (esi esr : ℚ) (prs : ℚ) (prd : Nat) (pe : Bool)
    (jpc hpc ppc : Nat) (ebm : String) (ecr ecirc_r ecirc_s : ℚ) :
    (Scene.new ms js gr es egs ss psh pmh ecd hid hfe fro jsv hsv psv inp ww wh
        mpe mpv mps mpa cbe cba cbs eje eji ejs ese esi esr prs prd pe jpc hpc ppc
        ebm ecr ecirc_r ecirc_s).entities = [] := rfl

/-- The platform phase of generate_scene never touches the entity list. -/
theorem spawn_platforms_entities (assets : Assets) (rules : GameRules) (screen_size : Vec2)
    (scene : Scene) (g : Rng) (out : Scene × Rng)
    (h : spawn_platforms assets rules screen_size scene g = some out) :
    out.1.entities = scene.entities := by
  unfold spawn_platforms at h
  dsimp only at h
  split at h
  · have := Option.some.inj h
    subst this
    rfl
  · split at h
    · exact absurd h (by simp)
    · split at h
      · exact absurd h (by simp)
      · have := Option.some.inj h
        subst this
        rfl

/-- The player phase appends at most a Player entity: the counts of other
entity kinds are unchanged. -/
theorem spawn_player_counts (assets : Assets) (screen_size : Vec2) (scene : Scene)
    (g : Rng) (k : EntityKind) (hk : k ≠ EntityKind.Player) :
    countKind k (spawn_player assets screen_size scene g).1 = countKind k scene := by
  unfold spawn_player
  dsimp only
  split
  · rw [countKind_append_one, if_neg (fun hh => hk hh.symm), Nat.add_zero]
  · rfl

/-- With the (boss-adjusted) enemy toggle off, the enemy phase is a no-op. -/
theorem spawn_enemies_disabled (assets : Assets) (rules : GameRules) (screen_size : Vec2)
    (speed : ℚ) (mn mx : Nat) (scene : Scene) (g : Rng) :
    spawn_enemies assets rules screen_size speed mn mx false scene g = some (scene, g) := by
  unfold spawn_enemies
  rw [if_neg]
  simp

/-- On a boss level, a (case-insensitive) collect_fest boss_mode disables
enemies and sets the collectible multiplier to boss_collectibles_multiplier
floored at 1. -/
theorem bossMods_collect_fest (rules : GameRules) (level : Nat)
    (hbi : rules.boss_level_interval > 0) (hl : level > 0)
    (hm : level % rules.boss_level_interval = 0)
    (hmode : lowerStr rules.boss_mode = "collect_fest") :
    bossMods rules level = ⟨false, max rules.boss_collectibles_multiplier 1, 1, 1, 1⟩ := by
  unfold bossMods
  dsimp only
  rw [if_pos ⟨hbi, hl, hm⟩, hmode]
  rfl

/-- A boss_mode string outside the five recognized spellings leaves the
modifiers at their neutral values, boss level or not. -/
theorem bossMods_unrecognized (rules : GameRules) (level : Nat)
    (hmode : lowerStr rules.boss_mode ∉
      ["collect_fest", "collectfest", "collect", "boss_enemy", "boss"]) :
    bossMods rules level = ⟨rules.enemy_enabled, 1, 1, 1, 1⟩ := by
  simp only [List.mem_cons, List.mem_singleton] at hmode
  push_neg at hmode
  obtain ⟨h1, h2, h3, h4, h5⟩ := hmode
  unfold bossMods
  dsimp only
  split_ifs
  · split <;> simp_all
  · rfl

/-- A successful path-mode cluster placement appends exactly one collectible
per counted member; enemy counts and platforms are untouched. -/
theorem place_path_cluster_count (sprites : List SpriteAsset) (rules : GameRules)
    (pidx : List Nat) (si cs : Nat) (hs : sprites ≠ []) :
    ∀ k scene g out, place_path_cluster sprites rules pidx si cs k scene g = some out →
      countKind EntityKind.Collectible out.1 = countKind EntityKind.Collectible scene + k
      ∧ countKind EntityKind.Enemy out.1 = countKind EntityKind.Enemy scene
      ∧ out.1.platforms = scene.platforms := by
  intro k
  induction k with
  | zero =>
    intro scene g out h
    rw [place_path_cluster] at h
    have := Option.some.inj h
    subst this
    exact ⟨rfl, rfl, rfl⟩
  | succ k ih =>
    intro scene g out h
    rw [place_path_cluster] at h
    split at h
    · exact absurd h (by simp)
    · split at h
      · exact absurd h (by simp)
      · obtain ⟨spr, g2, hcr⟩ := choose_random_ne sprites g hs
        rw [hcr] at h
        dsimp only at h
        split at h
        · exact absurd h (by simp)
        · have hrec := ih _ _ _ h
          refine ⟨?_, ?_, ?_⟩
          · rw [hrec.1, countKind_append_one]
            dsimp only [mk_collectible]
            rw [if_pos rfl]
            omega
          · rw [hrec.2.1, countKind_append_one]
            dsimp only [mk_collectible]
            rw [if_neg (fun hh => nomatch hh), Nat.add_zero]
          · exact hrec.2.2

/-- A successful scatter-mode cluster placement appends exactly one
collectible per counted member; enemy counts and platforms are untouched. -/
theorem place_scatter_cluster_count (sprites : List SpriteAsset) (rules : GameRules)
    (hs : sprites ≠ []) :
    ∀ k scene g out, place_scatter_cluster sprites rules k scene g = some out →
      countKind EntityKind.Collectible out.1 = countKind EntityKind.Collectible scene + k
      ∧ countKind EntityKind.Enemy out.1 = countKind EntityKind.Enemy scene
      ∧ out.1.platforms = scene.platforms := by
  intro k
  induction k with
  | zero =>
    intro scene g out h
    rw [place_scatter_cluster] at h
    have := Option.some.inj h
    subst this
    exact ⟨rfl, rfl, rfl⟩
  | succ k ih =>
    intro scene g out h
    rw [place_scatter_cluster] at h
    split at h
    · exact absurd h (by simp)
    · split at h
      · exact absurd h (by simp)
      · rename_i idxg hidx platform hplat
        obtain ⟨spr, g2, hcr⟩ := choose_random_ne sprites _ hs
        rw [hcr] at h
        dsimp only at h
        split at h
        · exact absurd h (by simp)
        · have hrec := ih _ _ _ h
          refine ⟨?_, ?_, ?_⟩
          · rw [hrec.1, countKind_append_one]
            dsimp only [mk_collectible]
            rw [if_pos rfl]
            omega
          · rw [hrec.2.1, countKind_append_one]
            dsimp only [mk_collectible]
            rw [if_neg (fun hh => nomatch hh), Nat.add_zero]
          · exact hrec.2.2

/-- A successful run of the cluster loop on a scene with platforms places
exactly one collectible per unit of budget (the budget is consumed in full)
and spawns no enemies. -/
theorem cluster_loop_count (sprites : List SpriteAsset) (rules : GameRules)
    (pidx : List Nat) (cmin cmax : Nat) (hs : sprites ≠ [])
    (remaining : Nat) : ∀ scene g out,
    scene.platforms ≠ [] →
    cluster_loop sprites rules pidx cmin cmax remaining scene g = some out →
      countKind EntityKind.Collectible out.2.1
        = countKind EntityKind.Collectible scene + remaining
      ∧ countKind EntityKind.Enemy out.2.1 = countKind EntityKind.Enemy scene := by
  induction remaining using Nat.strong_induction_on with
  | _ remaining ih =>
    intro scene g out hp h
    rw [cluster_loop] at h
    split at h
    · rename_i hr
      have := Option.some.inj h
      subst this
      exact ⟨by simp [hr], rfl⟩
    · rename_i hr
      split at h
      · exact absurd h (by simp)
      · rename_i d g1 hgen
        dsimp only at h
        split at h
        · rename_i hemp
          exact absurd (List.isEmpty_iff.mp hemp) hp
        · split at h
          · exact absurd h (by simp)
          · rename_i scene2 g3 hplaced
            split at h
            · exact absurd h (by simp)
            · rename_i rest scene3 g4 hrec
              have hout := Option.some.inj h
              subst hout
              have hrem1 : 1 ≤ remaining := Nat.one_le_iff_ne_zero.mpr hr
              have hcsle : max (min d remaining) 1 ≤ remaining :=
                max_le (min_le_right _ _) hrem1
              have hplc : countKind EntityKind.Collectible scene2
                    = countKind EntityKind.Collectible scene + max (min d remaining) 1
                  ∧ countKind EntityKind.Enemy scene2 = countKind EntityKind.Enemy scene
                  ∧ scene2.platforms = scene.platforms := by
                split at hplaced
                · split at hplaced
                  · exact absurd hplaced (by simp)
                  · exact place_path_cluster_count sprites rules pidx _ _ hs _ _ _
                      (scene2, g3) hplaced
                · exact place_scatter_cluster_count sprites rules hs _ _ _
                    (scene2, g3) hplaced
              have hsub : remaining - max (min d remaining) 1 < remaining :=
                Nat.sub_lt (by omega) (by omega)
              have hih := ih _ hsub scene2 g3 (rest, scene3, g4)
                (by rw [hplc.2.2]; exact hp) hrec
              refine ⟨?_, ?_⟩
              · have h1 := hih.1
                dsimp only at h1 ⊢
                rw [h1, hplc.1]
                omega
              · have h2 := hih.2
                dsimp only at h2 ⊢
                rw [h2, hplc.2.1]

/-- When spawn_collectibles runs its loop (returns a trace), it adds exactly
total collectibles and no enemies, and the total is the drawn base total
scaled by the clamped multiplier, rounded and floored at zero. -/
theorem spawn_collectibles_traced_count (scene : Scene) (assets : Assets)
    (rules : GameRules) (level : Nat) (g : Rng) (mult : ℚ) (tr : CollectTrace)
    (scene2 : Scene) (g2 : Rng)
    (h : spawn_collectibles_traced scene assets rules level g mult
      = some (some tr, scene2, g2)) :
    countKind EntityKind.Collectible scene2
      = countKind EntityKind.Collectible scene + tr.total
    ∧ countKind EntityKind.Enemy scene2 = countKind EntityKind.Enemy scene
    ∧ tr.total = qToUsize (max (rustRound ((tr.base_total : ℚ) * max mult 0)) 0) := by
  unfold spawn_collectibles_traced at h
  dsimp only at h
  split at h
  · simp at h
  · rename_i hguard
    simp only [Bool.or_eq_true, Bool.not_eq_true', not_or] at hguard
    have hsne : assets.sprites_of_kind SpriteKind.Collectible ≠ [] := by
      intro hnil
      rw [hnil] at hguard
      simp at hguard
    have hpne : scene.platforms ≠ [] := by
      intro hnil
      rw [hnil] at hguard
      simp at hguard
    split at h
    · simp at h
    · rename_i bt gb hgen
      split at h
      · simp at h
      · rename_i clusters scene3 g3 hloop
        simp only [Option.some.injEq, Prod.mk.injEq] at h
        obtain ⟨htr, hsc, hgq⟩ := h
        subst hsc hgq
        subst htr
        have hcount := cluster_loop_count
          (assets.sprites_of_kind SpriteKind.Collectible) rules _ _ _ hsne _
          scene gb _ hpne hloop
        exact ⟨hcount.1, hcount.2, rfl⟩

/-- C6 (amended): on every boss level (boss_level_interval > 0, a positive
multiple of it) with boss_mode equal case-insensitively to collect_fest,
generate_scene spawns no enemies and the collectible total equals the drawn
base total scaled by max(boss_collectibles_multiplier, 1), rounded, floored
at zero -- the multiplier is clamped below at 1, so values below 1 do NOT
shrink the total; and a boss_mode outside the five recognized spellings
leaves the modifiers neutral. -/
theorem generate_boss_collect_fest (assets : Assets) (rules : GameRules) (level : Nat)
    (screen_size : Vec2) (custom : Option CustomLevel) (g : Rng)
    (tr : CollectTrace) (ne nc : Nat)
    (hbi : rules.boss_level_interval > 0) (hl : level > 0)
    (hm : level % rules.boss_level_interval = 0)
    (hmode : lowerStr rules.boss_mode = "collect_fest")
    (h : (generate_scene_traced assets rules level screen_size custom g).map
      (fun r => (r.1.2, countKind EntityKind.Enemy r.1.1,
        countKind EntityKind.Collectible r.1.1)) = some (some tr, ne, nc)) :
    ne = 0
    ∧ nc = tr.total
    ∧ tr.total = qToUsize (max (rustRound ((tr.base_total : ℚ)
        * max rules.boss_collectibles_multiplier 1)) 0)
    ∧ ∀ rules2 level2, lowerStr rules2.boss_mode ∉
        ["collect_fest", "collectfest", "collect", "boss_enemy", "boss"] →
      bossMods rules2 level2 = ⟨rules2.enemy_enabled, 1, 1, 1, 1⟩ := by
  have hbm := bossMods_collect_fest rules level hbi hl hm hmode
  unfold generate_scene_traced at h
  rw [hbm] at h
  dsimp only at h
  split at h
  · simp at h
  · split at h
    · simp at h
    · rename_i scene1 g1 hsp
      rw [spawn_enemies_disabled] at h
      dsimp only at h
      split at h
      · simp at h
      · rename_i trace scene4 g4 hcoll
        dsimp only [Option.map] at h
        simp only [Option.some.injEq, Prod.mk.injEq] at h
        obtain ⟨htrace, hne, hnc⟩ := h
        subst htrace
        have hcnt := spawn_collectibles_traced_count _ _ _ _ _ _ _ _ _ hcoll
        have hmax0 : max (max rules.boss_collectibles_multiplier 1) 0
            = max rules.boss_collectibles_multiplier 1 :=
          max_eq_left (le_trans zero_le_one (le_max_right _ _))
        have hple := spawn_platforms_entities _ _ _ _ _ _ hsp
        have hcc0 : countKind EntityKind.Collectible scene1 = 0 := by
          unfold countKind
          rw [hple]
          split <;> rfl
        have hce0 : countKind EntityKind.Enemy scene1 = 0 := by
          unfold countKind
          rw [hple]
          split <;> rfl
        refine ⟨?_, ?_, ?_, fun rules2 level2 hmm => bossMods_unrecognized rules2 level2 hmm⟩
        · rw [← hne, hcnt.2.1,
            spawn_player_counts _ _ _ _ EntityKind.Enemy (fun hh => nomatch hh), hce0]
        · rw [← hnc, hcnt.1,
            spawn_player_counts _ _ _ _ EntityKind.Collectible (fun hh => nomatch hh), hcc0,
            Nat.zero_add]
        · rw [hcnt.2.2, hmax0]

/-- gen_range on a nonempty integer range always succeeds. -/
theorem gen_range_nat_some (lo hi : Nat) (g : Rng) (h : lo ≤ hi) :
    ∃ v g2, gen_range_nat lo hi g = some (v, g2) := by
  unfold gen_range_nat
  rw [if_neg (not_lt.mpr h)]
  cases hp : g.next with
  | mk w gw =>
    dsimp only
    exact ⟨_, _, rfl⟩

/-- gen_range(0..n) succeeds for positive n and returns an index below n. -/
theorem gen_index_some (n : Nat) (g : Rng) (h : n ≠ 0) :
    ∃ i g2, gen_index n g = some (i, g2) ∧ i < n := by
  unfold gen_index
  rw [if_neg h]
  cases hp : g.next with
  | mk w gw =>
    dsimp only
    exact ⟨_, _, rfl, Nat.mod_lt _ (Nat.pos_of_ne_zero h)⟩

/-- gen_range on a nonempty float range always succeeds. -/
theorem gen_range_q_some (lo hi : ℚ) (g : Rng) (h : lo < hi) :
    ∃ x g2, gen_range_q lo hi g = some (x, g2) := by
  unfold gen_range_q
  rw [if_neg (not_le.mpr h)]
  cases hp : g.next with
  | mk w gw =>
    dsimp only
    exact ⟨_, _, rfl⟩

/-- The f32 tau constant is positive. -/
theorem tau32_pos : (0 : ℚ) < tau32 := by
  rw [tau32]
  norm_num

/-- choose_random only returns elements of its input list. -/
theorem choose_random_mem (items : List SpriteAsset) (g : Rng) (s : SpriteAsset)
    (g2 : Rng) (h : choose_random items g = (some s, g2)) : s ∈ items := by
  unfold choose_random at h
  split_ifs at h with he
  · exact absurd (congrArg Prod.fst h) (by simp)
  · cases hp : g.next with
    | mk w gw =>
      rw [hp] at h
      dsimp only at h
      exact List.get?_mem (congrArg Prod.fst h)

/-- A float at least 1 casts to a usize at least 1. -/
theorem qToUsize_ge_one (q : ℚ) (h : (1 : ℚ) ≤ q) : 1 ≤ qToUsize q := by
  unfold qToUsize
  have h1 : (1 : ℤ) ≤ ⌊q⌋ := Int.le_floor.mpr (by exact_mod_cast h)
  refine Nat.le_min.mpr ⟨by omega, by norm_num [usizeMax]⟩

/-- A float at least an in-range natural casts to a usize at least it. -/
theorem qToUsize_nat_le (n : Nat) (q : ℚ) (h : (n : ℚ) ≤ q) (hn : n ≤ usizeMax) :
    n ≤ qToUsize q := by
  unfold qToUsize
  have h1 : (n : ℤ) ≤ ⌊q⌋ := Int.le_floor.mpr (by exact_mod_cast h)
  refine Nat.le_min.mpr ⟨by omega, hn⟩

/-- The usize cast is clamped at usize::MAX. -/
theorem qToUsize_le_max (q : ℚ) : qToUsize q ≤ usizeMax := min_le_right _ _

/-- gen_range on a nonempty integer range never fails. -/
theorem gen_range_nat_ne_none (lo hi : Nat) (g : Rng) (h : lo ≤ hi) :
    gen_range_nat lo hi g ≠ none := by
  obtain ⟨v, g2, hv⟩ := gen_range_nat_some lo hi g h
  rw [hv]
  exact Option.some_ne_none _

/-- gen_range(0..n) never fails for positive n. -/
theorem gen_index_ne_none (n : Nat) (g : Rng) (h : n ≠ 0) : gen_index n g ≠ none := by
  obtain ⟨i, g2, hv, _⟩ := gen_index_some n g h
  rw [hv]
  exact Option.some_ne_none _

/-- A successful gen_range(0..n) index is below n. -/
theorem gen_index_lt (n : Nat) (g : Rng) (i : Nat) (g2 : Rng)
    (h : gen_index n g = some (i, g2)) : i < n := by
  unfold gen_index at h
  split_ifs at h with hz
  cases hp : g.next with
  | mk w gw =>
    rw [hp] at h
    dsimp only at h
    have hv : w % n = i := congrArg Prod.fst (Option.some.inj h)
    have := Nat.mod_lt w (Nat.pos_of_ne_zero hz)
    omega

/-- gen_range on a nonempty float range never fails. -/
theorem gen_range_q_ne_none (lo hi : ℚ) (g : Rng) (h : lo < hi) :
    gen_range_q lo hi g ≠ none := by
  obtain ⟨x, g2, hv⟩ := gen_range_q_some lo hi g h
  rw [hv]
  exact Option.some_ne_none _

/-- The platform row inner loop succeeds when every sprite it can choose is
either degenerate (nonpositive scaled width) or narrower than the screen. -/
theorem spawn_platform_row_some (sprites : List SpriteAsset) (rules : GameRules)
    (screen_size : Vec2) (y : ℚ)
    (hw : ∀ s ∈ sprites, s.texture.width * rules.sprite_scale ≤ 0
      ∨ s.texture.width * rules.sprite_scale < screen_size.x) :
    ∀ n platforms g,
      (spawn_platform_row sprites rules screen_size y n platforms g).isSome = true := by
  intro n
  induction n with
  | zero =>
    intro platforms g
    rw [spawn_platform_row]
    rfl
  | succ n ih =>
    intro platforms g
    rw [spawn_platform_row]
    cases hcr : choose_random sprites g with
    | mk o g2 =>
      dsimp only
      cases o with
      | none => exact ih platforms g2
      | some s =>
        have hmem := choose_random_mem sprites g s g2 hcr
        dsimp only
        split_ifs with hz
        · exact ih platforms g2
        · have hwlt : s.texture.width * rules.sprite_scale < screen_size.x := by
            rcases hw s hmem with hle | hlt
            · exact absurd hle hz
            · exact hlt
          split
          · rename_i heq
            exact absurd heq (gen_range_q_ne_none _ _ _ (by linarith))
          · rename_i x g3 heq
            split
            · rename_i heq2
              exact absurd heq2 (gen_range_q_ne_none _ _ _ tau32_pos)
            · rename_i ph g4 heq2
              exact ih _ g4

/-- The platform row loop succeeds under the same sprite-width hypothesis:
its drawn range is never empty because the maximum per-row count is floored
at 1. -/
theorem platform_rows_loop_some (sprites : List SpriteAsset) (rules : GameRules)
    (screen_size : Vec2) (max_y height_span : ℚ) (rows : Nat)
    (hw : ∀ s ∈ sprites, s.texture.width * rules.sprite_scale ≤ 0
      ∨ s.texture.width * rules.sprite_scale < screen_size.x) :
    ∀ k platforms g,
      (platform_rows_loop sprites rules screen_size max_y height_span rows
        k platforms g).isSome = true := by
  intro k
  induction k with
  | zero =>
    intro platforms g
    rw [platform_rows_loop]
    rfl
  | succ k ih =>
    intro platforms g
    rw [platform_rows_loop]
    split
    · rename_i heq
      refine absurd heq (gen_range_nat_ne_none _ _ _ ?_)
      exact max_le (min_le_right _ _) (qToUsize_ge_one _ (le_max_right _ _))
    · rename_i cnt g2 heq
      split
      · rename_i heq2
        exact absurd heq2 (Option.ne_none_iff_isSome.mpr
          (spawn_platform_row_some sprites rules screen_size _ hw _ _ _))
      · rename_i pl2 g3 heq2
        exact ih pl2 g3

/-- The ground row succeeds under the sprite-width hypothesis provided it is
disabled or the per-row maximum is at least 1 (its drawn range is NOT floored
at 1 like the regular rows). -/
theorem spawn_ground_row_some (sprites : List SpriteAsset) (rules : GameRules)
    (screen_size : Vec2) (platforms : List Platform) (g : Rng)
    (hw : ∀ s ∈ sprites, s.texture.width * rules.sprite_scale ≤ 0
      ∨ s.texture.width * rules.sprite_scale < screen_size.x)
    (hgr : rules.ground_row_enabled = false ∨ 1 ≤ rules.max_platforms_per_row) :
    (spawn_ground_row sprites rules screen_size platforms g).isSome = true := by
  unfold spawn_ground_row
  split_ifs with hen
  · have hmpp : 1 ≤ rules.max_platforms_per_row := by
      rcases hgr with hgr | hgr
      · rw [hgr] at hen
        exact absurd hen (by simp)
      · exact hgr
    dsimp only
    split
    · rename_i heq
      refine absurd heq (gen_range_nat_ne_none _ _ _ ?_)
      exact max_le (min_le_right _ _) (le_min hmpp (le_max_right _ _))
    · rename_i cnt g2 heq
      exact spawn_platform_row_some sprites rules screen_size _ hw _ _ _
  · rfl

/-- The platform phase succeeds under the sprite-width and ground-row
hypotheses. -/
theorem spawn_platforms_some (assets : Assets) (rules : GameRules) (screen_size : Vec2)
    (scene : Scene) (g : Rng)
    (hw : ∀ s ∈ assets.sprites_of_kind SpriteKind.Platform,
      s.texture.width * rules.sprite_scale ≤ 0
      ∨ s.texture.width * rules.sprite_scale < screen_size.x)
    (hgr : rules.ground_row_enabled = false ∨ 1 ≤ rules.max_platforms_per_row) :
    (spawn_platforms assets rules screen_size scene g).isSome = true := by
  unfold spawn_platforms
  dsimp only
  split_ifs
  · rfl
  · split
    · rename_i heq
      exact absurd heq (Option.ne_none_iff_isSome.mpr
        (platform_rows_loop_some _ rules screen_size _ _ _ hw _ _ _))
    · rename_i pl g2 heq
      split
      · rename_i heq2
        exact absurd heq2 (Option.ne_none_iff_isSome.mpr
          (spawn_ground_row_some _ rules screen_size _ _ hw hgr))
      · rfl

/-- The enemy inner loop succeeds on a positive-width screen: every range it
draws from is nonempty and every platform index it draws is in range. -/
theorem spawn_enemy_loop_some (enemies : List SpriteAsset) (rules : GameRules)
    (screen_size : Vec2) (speed : ℚ) (hx : 0 < screen_size.x) :
    ∀ n scene g,
      (spawn_enemy_loop enemies rules screen_size speed n scene g).isSome = true := by
  intro n
  induction n with
  | zero =>
    intro scene g
    rw [spawn_enemy_loop]
    rfl
  | succ n ih =>
    intro scene g
    rw [spawn_enemy_loop]
    cases hcr : choose_random enemies g with
    | mk o g2 =>
      dsimp only
      cases o with
      | none => exact ih scene g2
      | some ea =>
        dsimp only
        by_cases hemp : scene.platforms.isEmpty
        · rw [if_pos hemp]
          dsimp only
          rw [if_neg (by simp)]
          obtain ⟨row, g3, hgi, hrowlt⟩ := gen_index_some (max rules.enemy_spawn_rows 1)
            g2 (Nat.one_le_iff_ne_zero.mp (le_max_right _ 1))
          rw [hgi]
          dsimp only
          obtain ⟨x, g4, hgx⟩ := gen_range_q_some 0 screen_size.x g3 hx
          rw [hgx]
          dsimp only
          obtain ⟨ph, g5, hph⟩ := gen_range_q_some 0 tau32 _ tau32_pos
          rw [hph]
          dsimp only
          exact ih _ _
        · rw [if_neg hemp]
          dsimp only
          by_cases hup : decide ((gen_unit g2).1 < rules.enemy_on_platform_chance) = true
          · rw [if_pos hup]
            obtain ⟨idx, g3, hgi, hlt⟩ := gen_index_some scene.platforms.length _
              (by
                intro hz
                exact hemp (List.isEmpty_iff.mpr (List.length_eq_zero.mp hz)))
            rw [hgi]
            dsimp only
            cases hq : scene.platforms.get? idx with
            | none => exact absurd (List.get?_eq_none.mp hq) (by omega)
            | some p =>
              dsimp only
              obtain ⟨ph, g5, hph⟩ := gen_range_q_some 0 tau32 _ tau32_pos
              rw [hph]
              dsimp only
              exact ih _ _
          · rw [if_neg hup]
            obtain ⟨row, g3, hgi, hrowlt⟩ := gen_index_some (max rules.enemy_spawn_rows 1)
              _ (Nat.one_le_iff_ne_zero.mp (le_max_right _ 1))
            rw [hgi]
            dsimp only
            obtain ⟨x, g4, hgx⟩ := gen_range_q_some 0 screen_size.x g3 hx
            rw [hgx]
            dsimp only
            obtain ⟨ph, g5, hph⟩ := gen_range_q_some 0 tau32 _ tau32_pos
            rw [hph]
            dsimp only
            exact ih _ _

/-- The enemy phase succeeds on a positive-width screen when the effective
count range is nonempty. -/
theorem spawn_enemies_some (assets : Assets) (rules : GameRules) (screen_size : Vec2)
    (speed : ℚ) (mn mx : Nat) (en : Bool) (scene : Scene) (g : Rng)
    (hx : 0 < screen_size.x) (hmn : mn ≤ mx) :
    (spawn_enemies assets rules screen_size speed mn mx en scene g).isSome = true := by
  unfold spawn_enemies
  dsimp only
  split_ifs
  · split
    · rename_i heq
      exact absurd heq (gen_range_nat_ne_none _ _ _ hmn)
    · rename_i cnt g2 heq
      exact spawn_enemy_loop_some _ rules screen_size speed hx _ _ _
  · rfl

/-- The path-mode placement succeeds when the index run stays inside the
sorted index list and every index is a valid platform index. -/
theorem place_path_cluster_some (sprites : List SpriteAsset) (rules : GameRules)
    (pidx : List Nat) (si cs : Nat) (P : Nat)
    (hlen : si + cs ≤ pidx.length)
    (hmem : ∀ x ∈ pidx, x < P) :
    ∀ k scene g, k ≤ cs → scene.platforms.length = P →
      (place_path_cluster sprites rules pidx si cs k scene g).isSome = true := by
  intro k
  induction k with
  | zero =>
    intro scene g hk hp
    rw [place_path_cluster]
    rfl
  | succ k ih =>
    intro scene g hk hp
    rw [place_path_cluster]
    dsimp only
    have hi : si + (cs - (k + 1)) < pidx.length := by omega
    cases hq : pidx.get? (si + (cs - (k + 1))) with
    | none =>
      exfalso
      have := List.get?_eq_none.mp hq
      omega
    | some pix =>
      dsimp only
      have hpix : pix < P := hmem _ (List.get?_mem hq)
      cases hq2 : scene.platforms.get? pix with
      | none =>
        exfalso
        have := List.get?_eq_none.mp hq2
        omega
      | some platform =>
        dsimp only
        cases hcr : choose_random sprites g with
        | mk o g2 =>
          dsimp only
          cases o with
          | none => exact ih scene g2 (by omega) hp
          | some s =>
            dsimp only
            obtain ⟨ph, g3, hph⟩ := gen_range_q_some 0 tau32 _ tau32_pos
            rw [hph]
            dsimp only
            exact ih _ g3 (by omega) hp

/-- The scatter-mode placement succeeds on a scene with platforms. -/
theorem place_scatter_cluster_some (sprites : List SpriteAsset) (rules : GameRules)
    (P : Nat) (hP : P ≠ 0) :
    ∀ k scene g, scene.platforms.length = P →
      (place_scatter_cluster sprites rules k scene g).isSome = true := by
  intro k
  induction k with
  | zero =>
    intro scene g hp
    rw [place_scatter_cluster]
    rfl
  | succ k ih =>
    intro scene g hp
    rw [place_scatter_cluster]
    obtain ⟨idx, g2, hgi, hlt⟩ := gen_index_some scene.platforms.length g
      (by rw [hp]; exact hP)
    rw [hgi]
    dsimp only
    cases hq : scene.platforms.get? idx with
    | none =>
      exfalso
      have := List.get?_eq_none.mp hq
      omega
    | some platform =>
      dsimp only
      cases hcr : choose_random sprites g2 with
      | mk o g3 =>
        dsimp only
        cases o with
        | none => exact ih scene g3 hp
        | some s =>
          dsimp only
          obtain ⟨ph, g4, hph⟩ := gen_range_q_some 0 tau32 _ tau32_pos
          rw [hph]
          dsimp only
          exact ih _ g4 hp

/-- The cluster loop succeeds when its size range is nonempty (as the caller
arranges by flooring cluster_max at cluster_min) and every sorted index is a
valid platform index. -/
theorem cluster_loop_some (sprites : List SpriteAsset) (rules : GameRules)
    (pidx : List Nat) (cmin cmax : Nat) (P : Nat)
    (hs : sprites ≠ []) (hcx : cmin ≤ cmax) (hmem : ∀ x ∈ pidx, x < P)
    (remaining : Nat) : ∀ scene g, scene.platforms.length = P →
      (cluster_loop sprites rules pidx cmin cmax remaining scene g).isSome = true := by
  induction remaining using Nat.strong_induction_on with
  | _ remaining ih =>
    intro scene g hp
    by_cases hr : remaining = 0
    · rw [cluster_loop, dif_pos hr]
      rfl
    · rw [cluster_loop, dif_neg hr]
      obtain ⟨d, g1, hgen⟩ := gen_range_nat_some cmin cmax g hcx
      rw [hgen]
      dsimp only
      by_cases hemp : scene.platforms.isEmpty = true
      · rw [if_pos hemp]
        rfl
      · rw [if_neg hemp]
        by_cases hpath : rules.collectibles_follow_path = true
            ∧ pidx.length ≥ max (min d remaining) 1
        · rw [if_pos hpath]
          obtain ⟨si, g2, hsi⟩ :=
            gen_range_nat_some 0 (pidx.length - max (min d remaining) 1) g1 (Nat.zero_le _)
          rw [hsi]
          dsimp only
          have hsib := gen_range_nat_bounds _ _ _ _ _ hsi
          have hpx := hpath.2
          have hplace := place_path_cluster_some sprites rules pidx si
            (max (min d remaining) 1) P (by omega) hmem (max (min d remaining) 1)
            scene g2 (le_refl _) hp
          split
          · rename_i heq
            exact absurd heq (Option.ne_none_iff_isSome.mpr hplace)
          · rename_i scene2 g3 heq
            have hsub : remaining - max (min d remaining) 1 < remaining := by
              have h1 : 1 ≤ max (min d remaining) 1 := le_max_right _ _
              omega
            have hihres := ih _ hsub scene2 g3 (by
              rw [(place_path_cluster_count sprites rules pidx si
                (max (min d remaining) 1) hs _ _ _ _ heq).2.2]
              exact hp)
            split
            · rename_i heq2
              exact absurd heq2 (Option.ne_none_iff_isSome.mpr hihres)
            · rfl
        · rw [if_neg hpath]
          have hP0 : P ≠ 0 := by
            intro h0
            apply hemp
            rw [List.isEmpty_iff, ← List.length_eq_zero, hp, h0]
          have hplace := place_scatter_cluster_some sprites rules P hP0
            (max (min d remaining) 1) scene g1 hp
          split
          · rename_i heq
            exact absurd heq (Option.ne_none_iff_isSome.mpr hplace)
          · rename_i scene2 g3 heq
            have hsub : remaining - max (min d remaining) 1 < remaining := by
              have h1 : 1 ≤ max (min d remaining) 1 := le_max_right _ _
              omega
            have hihres := ih _ hsub scene2 g3 (by
              rw [(place_scatter_cluster_count sprites rules hs _ _ _ _ heq).2.2]
              exact hp)
            split
            · rename_i heq2
              exact absurd heq2 (Option.ne_none_iff_isSome.mpr hihres)
            · rfl

/-- The collectible phase never fails: every range it draws from is nonempty
by construction and the sorted platform indices are always in range. -/
theorem spawn_collectibles_traced_some (scene : Scene) (assets : Assets)
    (rules : GameRules) (level : Nat) (g : Rng) (mult : ℚ) :
    (spawn_collectibles_traced scene assets rules level g mult).isSome = true := by
  unfold spawn_collectibles_traced
  dsimp only
  split_ifs with hguard
  · rfl
  · simp only [Bool.or_eq_true, Bool.not_eq_true', not_or] at hguard
    have hsne : assets.sprites_of_kind SpriteKind.Collectible ≠ [] := by
      intro hnil
      rw [hnil] at hguard
      simp at hguard
    obtain ⟨bt, gb, hgen⟩ := gen_range_nat_some _ _ g (le_max_right _ _)
    rw [hgen]
    dsimp only
    split
    · rename_i heq
      refine absurd heq (Option.ne_none_iff_isSome.mpr
        (cluster_loop_some _ rules _ _ _ scene.platforms.length hsne (le_max_right _ _)
          ?_ _ scene gb rfl))
      intro x hx
      rw [List.mem_mergeSort] at hx
      exact List.mem_range.mp hx
    · rfl

/-- C5 (amended): generate_scene completes without panicking for every
level, RNG, asset catalog and authored level, provided the screen width is
positive, every platform sprite is degenerate (nonpositive scaled width) or
narrower than the screen, and the ground row is disabled or
max_platforms_per_row is at least 1.  Without the sprite-width condition the
platform x-range margin..(width - margin) is empty and gen_range panics;
without the ground-row condition the ground row draws from
max(min_platforms_per_row.min(max_for_row), 1)..max_for_row with
max_for_row = 0, which is empty. -/
theorem generate_scene_no_panic (assets : Assets) (rules : GameRules) (level : Nat)
    (screen_size : Vec2) (custom : Option CustomLevel) (g : Rng)
    (hx : 0 < screen_size.x)
    (hw : ∀ s ∈ assets.sprites, s.kind = SpriteKind.Platform →
      s.texture.width * rules.sprite_scale ≤ 0
      ∨ s.texture.width * rules.sprite_scale < screen_size.x)
    (hgr : rules.ground_row_enabled = false ∨ 1 ≤ rules.max_platforms_per_row) :
    (generate_scene assets rules level screen_size custom g).isSome = true := by
  have hw2 : ∀ s ∈ assets.sprites_of_kind SpriteKind.Platform,
      s.texture.width * rules.sprite_scale ≤ 0
      ∨ s.texture.width * rules.sprite_scale < screen_size.x := by
    intro s hsm
    unfold Assets.sprites_of_kind at hsm
    have hsm2 := List.mem_filter.mp hsm
    exact hw s hsm2.1 (by simpa using hsm2.2)
  suffices h : (generate_scene_traced assets rules level screen_size custom g).isSome
      = true by
    unfold generate_scene
    cases hres : generate_scene_traced assets rules level screen_size custom g with
    | none =>
      rw [hres] at h
      exact absurd h (by simp)
    | some r => rfl
  unfold generate_scene_traced
  dsimp only
  split
  · rfl
  · split
    · rename_i heq
      exact absurd heq (Option.ne_none_iff_isSome.mpr
        (spawn_platforms_some _ _ _ _ _ hw2 hgr))
    · rename_i scene1 g1 hsp
      split
      · rename_i heq
        refine absurd heq (Option.ne_none_iff_isSome.mpr
          (spawn_enemies_some _ _ _ _ _ _ _ _ _ hx ?_))
        exact qToUsize_nat_le _ _ (le_max_right _ _) (qToUsize_le_max _)
      · rename_i scene2 g2 hse
        split
        · rename_i heq
          exact absurd heq (Option.ne_none_iff_isSome.mpr
            (spawn_collectibles_traced_some _ _ _ _ _ _))
        · rfl

set_option maxRecDepth 8000 in
/-- Counterexample dual for C5: two rules/screen configurations on which
generate_scene panics (the embedding returns none exactly where rand
gen_range is called on an empty range).  First, with the default rules on a
32-wide screen the 64-wide platform sprite makes the x-range
margin..(width - margin) empty.  Second, with max_platforms_per_row = 0 and
the ground row enabled the ground row draws from an empty 1..0 range. -/
theorem generate_scene_panics :
    generate_scene exAssets GameRules.default 1 (vec2 32 600) none ⟨0⟩ = none
    ∧ generate_scene exAssets { GameRules.default with max_platforms_per_row := 0 } 1
        (vec2 800 600) none ⟨0⟩ = none :=
  ⟨by with_unfolding_all decide, by with_unfolding_all decide⟩

set_option maxRecDepth 8000 in
/-- Witness for C5 with the default rules on an 800x600 screen: generation
succeeds from seed 0. -/
theorem generate_scene_no_panic_witness :
    (generate_scene exAssets GameRules.default 1 (vec2 800 600) none ⟨0⟩).isSome = true :=
  generate_scene_no_panic exAssets GameRules.default 1 (vec2 800 600) none ⟨0⟩
    (by with_unfolding_all decide) (by with_unfolding_all decide)
    (Or.inr (by decide))

set_option maxRecDepth 8000 in
/-- Counterexample dual for C6's literal scaling: with
boss_collectibles_multiplier = 1/2 on a collect_fest boss level the drawn
base total 4 yields a total of 4 (the multiplier is clamped up to 1), not
the literally scaled round(4 * 1/2) = 2. -/
theorem boss_collect_fest_multiplier_not_literal :
    ((generate_scene_traced exAssets c6Rules 1 (vec2 800 600) none ⟨7⟩).map
      (fun r => r.1.2)) = some (some ⟨4, 4, [1, 1, 1, 1]⟩)
    ∧ qToUsize (max (rustRound ((4 : ℚ) * c6Rules.boss_collectibles_multiplier)) 0) = 2
    ∧ (2 : Nat) ≠ 4 :=
  ⟨by with_unfolding_all decide, by with_unfolding_all decide, by decide⟩

set_option maxRecDepth 8000 in
/-- Witness for C6 at the counterexample instance: 0 enemies, 4 collectibles,
total 4 = round(4 * max(1/2, 1)). -/
theorem generate_boss_collect_fest_witness :
    (0 : Nat) = 0
    ∧ (4 : Nat) = (CollectTrace.mk 4 4 [1, 1, 1, 1]).total
    ∧ (CollectTrace.mk 4 4 [1, 1, 1, 1]).total
        = qToUsize (max (rustRound (((CollectTrace.mk 4 4 [1, 1, 1, 1]).base_total : ℚ)
            * max c6Rules.boss_collectibles_multiplier 1)) 0)
    ∧ ∀ rules2 level2, lowerStr rules2.boss_mode ∉
        ["collect_fest", "collectfest", "collect", "boss_enemy", "boss"] →
      bossMods rules2 level2 = ⟨rules2.enemy_enabled, 1, 1, 1, 1⟩ :=
  generate_boss_collect_fest exAssets c6Rules 1 (vec2 800 600) none ⟨7⟩
    ⟨4, 4, [1, 1, 1, 1]⟩ 0 4 (by decide) (by decide) (by decide) (by decide)
    (by with_unfolding_all decide)

set_option maxRecDepth 8000 in
/-- Witness for C8 at the stated example: 32x32 player at (400, 500) resting
on a 64x16 platform centered at (400, 524), gravity 900, dt = 1/60. -/
theorem update_resting_on_platform_witness :
    ∃ e2, (c8Scene.update (1/60) keysNone mfZero).entities = [e2]
      ∧ e2.position.y = c8Player.position.y
      ∧ e2.position.x = c8Player.position.x
      ∧ e2.velocity.y = 0 :=
  update_resting_on_platform c8Scene (1/60) keysNone mfZero c8Player c8Platform
    rfl rfl rfl rfl rfl (fun _ => rfl) (fun _ => rfl)
    (by with_unfolding_all decide)
    (by with_unfolding_all decide)
    (by with_unfolding_all decide)
    (by with_unfolding_all decide)
    (by with_unfolding_all decide)
    (by with_unfolding_all decide)
    (by with_unfolding_all decide)
    (by with_unfolding_all decide)
    (by with_unfolding_all decide)

end Engine
